import Mathlib

/-!
# Trap dispatch core of flinux: `src/syscall/syscall.c`

A shallow embedding of the syscall table, `sys_unimplemented`,
`dispatch_syscall` and `exception_handler`, for both builds of the file
(the `#ifdef _WIN64` branches), followed by the properties proved about them.

Conventions of the embedding.

* Registers are natural numbers; a write that can overflow the register is
  reduced modulo `2 ^ bits`.
* Every function returns a `Result`: the register snapshot and the state of
  the outside world it leaves, the list of actions it emitted in order
  (calls of external functions), and how it ended (`Outcome`).
* A logging action carries its format and the values that the conversions
  of the format read from the arguments (`%d` an `int`, `%x` an
  `unsigned int`, `%p` a pointer-sized value).
* The external collaborators (syscall handlers, `mm_handle_page_fault`,
  `tls_gs_emulation`, the bytes of memory) are fields of an environment
  `Env`; nothing is assumed about them.
-/

namespace Flinux

/-! ## Builds and register snapshots -/

/-- The two builds of the file: `_WIN64` undefined or defined. -/
inductive Build where
  | win32
  | win64
  deriving DecidableEq, Repr

/-- Width in bits of a general-purpose register (`DWORD` or `DWORD64`). -/
def Build.bits : Build → Nat
  | .win32 => 32
  | .win64 => 64

/-- The fields of the 32-bit `CONTEXT` that the file reads or writes. -/
structure CONTEXT32 where
  Eax : Nat
  Ebx : Nat
  Ecx : Nat
  Edx : Nat
  Esi : Nat
  Edi : Nat
  Ebp : Nat
  Esp : Nat
  Eip : Nat
  deriving DecidableEq, Repr

/-- The fields of the 64-bit `CONTEXT` that the file reads or writes. -/
structure CONTEXT64 where
  Rax : Nat
  Rbx : Nat
  Rcx : Nat
  Rdx : Nat
  Rsi : Nat
  Rdi : Nat
  Rbp : Nat
  Rsp : Nat
  R8 : Nat
  R9 : Nat
  R10 : Nat
  R11 : Nat
  R12 : Nat
  R13 : Nat
  R14 : Nat
  R15 : Nat
  Rip : Nat
  deriving DecidableEq, Repr

/-- The register snapshot `CONTEXT` of a build. -/
abbrev CONTEXT : Build → Type
  | .win32 => CONTEXT32
  | .win64 => CONTEXT64

/-- Modelled from the spec: the macro `Xip` of `platform.h`, which is not
among the sources; it names the instruction pointer field of the build's
snapshot (`Eip`, `Rip`). This is the read of that field. -/
def Xip : (b : Build) → CONTEXT b → Nat
  | .win32, c => CONTEXT32.Eip c
  | .win64, c => CONTEXT64.Rip c

/-- Assignment to the field named by `Xip`. -/
def set_Xip : (b : Build) → CONTEXT b → Nat → CONTEXT b
  | .win32, c, v => { (c : CONTEXT32) with Eip := v }
  | .win64, c, v => { (c : CONTEXT64) with Rip := v }

/-- The accumulator register of the build: `Eax` or `Rax`. -/
def accumulator : (b : Build) → CONTEXT b → Nat
  | .win32, c => CONTEXT32.Eax c
  | .win64, c => CONTEXT64.Rax c

/-- Reduction of an address or register value to the register width. -/
def wrap (b : Build) (n : Nat) : Nat := n % 2 ^ b.bits

/-! ## Conversions between registers and `int` -/

/-- The C conversion `(int) v` of an unsigned register value: the low 32
bits, read in two's complement. -/
def to_int (v : Nat) : Int :=
  if v % 2 ^ 32 < 2 ^ 31 then ((v % 2 ^ 32 : Nat) : Int)
  else ((v % 2 ^ 32 : Nat) : Int) - 2 ^ 32

/-- What a `%x` conversion of the logger reads from its argument: an
`unsigned int`, the low 32 bits of the value passed. -/
def to_unsigned (v : Nat) : Nat := v % 2 ^ 32

/-- The value of C type `int` that an integer denotes (identity on
`-2^31 ≤ r < 2^31`); a handler returns an `int`. -/
def as_int (r : Int) : Int := (r + 2 ^ 31) % 2 ^ 32 - 2 ^ 31

/-- The C conversion of an `int` to the unsigned register type of width
`bits`: the value modulo `2 ^ bits` (sign extension when `bits = 64`). -/
def of_int (bits : Nat) (r : Int) : Nat := (r % (2 : Int) ^ bits).toNat

/-! ## Actions, outcomes, results -/

/-- The actions the file performs on the outside world, each a call of an
external function with the values passed. -/
inductive Event (b : Build) where
  | log_info (fmt : String) (args : List Int)
  | log_warning (fmt : String) (args : List Int)
  | log_error (fmt : String) (args : List Int)
  | ExitProcess (uExitCode : Nat)
  | syscall (index : Nat) (a1 a2 a3 a4 a5 a6 : Int) (context : CONTEXT b)
  | mm_handle_page_fault (addr : Nat)
  | tls_gs_emulation (context : CONTEXT b) (code : Nat)
  | dump_virtual_memory (process : Int)
  | mm_dump_stack_trace (context : CONTEXT b)
  | log_shutdown

/-- What is undefined in C and reached by the code. -/
inductive Undefined where
  | out_of_bounds (index : Nat)
  | null_call (index : Nat)
  deriving DecidableEq, Repr

/-- How a function ends: it returns a value, the process is terminated by
`ExitProcess`, or the behaviour is undefined. -/
inductive Outcome (α : Type) where
  | returned (a : α)
  | exited (uExitCode : Nat)
  | undefined (what : Undefined)
  deriving DecidableEq, Repr

/-- The snapshot and world a function leaves, the actions it emitted, and
how it ended. -/
structure Result (b : Build) (W α : Type) where
  context : CONTEXT b
  world : W
  events : List (Event b)
  outcome : Outcome α

/-! ## The syscall table -/

/-- What an external syscall handler does: it returns an `int`, leaving a
snapshot and a world, or it terminates the process. -/
inductive HandlerResult (b : Build) (W : Type) where
  | returns (r : Int) (context : CONTEXT b) (world : W)
  | exits (uExitCode : Nat) (context : CONTEXT b) (world : W)

/-- The type `syscall_fn`: six `int` arguments and the snapshot. -/
abbrev syscall_fn (b : Build) (W : Type) : Type :=
  Int → Int → Int → Int → Int → Int → CONTEXT b → W → HandlerResult b W

/-- A function a table slot can point to: `sys_unimplemented`, defined in
this file, or a handler defined elsewhere. -/
inductive Handler (b : Build) (W : Type) where
  | sys_unimplemented
  | handler (h : syscall_fn b W)

/-- The length `SYSCALL_COUNT` of the table. -/
def SYSCALL_COUNT : Nat := 338

/-- The array `syscall_table`, from the list `names` of the `SYSCALL(name)`
entries of `syscall_table.h` (not among the sources, so a parameter): slot
0 is `sys_unimplemented`, the entries follow, and the elements the
initializer does not reach are null pointers (`none`). -/
def syscall_table {b : Build} {W : Type} (names : List (Handler b W)) :
    List (Option (Handler b W)) :=
  ((Handler.sys_unimplemented :: names).map some ++
    List.replicate (SYSCALL_COUNT - (names.length + 1)) none).take SYSCALL_COUNT

/-- The function `sys_unimplemented`: it logs the accumulator as an `int`
and calls `ExitProcess(1)`. -/
def sys_unimplemented {W : Type} (b : Build) (_1 _2 _3 _4 _5 _6 : Int)
    (context : CONTEXT b) (world : W) : Result b W Int :=
  match b, context with
  | .win64, c =>
    { context := c, world := world,
      events := [.log_error "FATAL: Unimplemented syscall: %d\n" [to_int (CONTEXT64.Rax c)],
                 .ExitProcess 1],
      outcome := .exited 1 }
  | .win32, c =>
    { context := c, world := world,
      events := [.log_error "FATAL: Unimplemented syscall: %d\n" [to_int (CONTEXT32.Eax c)],
                 .ExitProcess 1],
      outcome := .exited 1 }

/-- The expression `(*syscall_table[index])(a1, ..., a6, context)`: the
array is read at `index` without a test of `index` against its length, and
the pointer found is called. -/
def call_syscall_table {b : Build} {W : Type} (names : List (Handler b W)) (index : Nat)
    (a1 a2 a3 a4 a5 a6 : Int) (context : CONTEXT b) (world : W) : Result b W Int :=
  match (syscall_table names).get? index with
  | none =>
    { context := context, world := world, events := [],
      outcome := .undefined (.out_of_bounds index) }
  | some none =>
    { context := context, world := world,
      events := [.syscall index a1 a2 a3 a4 a5 a6 context],
      outcome := .undefined (.null_call index) }
  | some (some .sys_unimplemented) =>
    let r := sys_unimplemented b a1 a2 a3 a4 a5 a6 context world
    { r with events := .syscall index a1 a2 a3 a4 a5 a6 context :: r.events }
  | some (some (.handler h)) =>
    match h a1 a2 a3 a4 a5 a6 context world with
    | .returns r c w =>
      { context := c, world := w,
        events := [.syscall index a1 a2 a3 a4 a5 a6 context],
        outcome := .returned (as_int r) }
    | .exits code c w =>
      { context := c, world := w,
        events := [.syscall index a1 a2 a3 a4 a5 a6 context],
        outcome := .exited code }

/-- The function `dispatch_syscall`: the handler found at the accumulator
is called with the six argument registers converted to `int`, and its
result is assigned to the accumulator. -/
def dispatch_syscall {W : Type} (b : Build) (names : List (Handler b W))
    (context : CONTEXT b) (world : W) : Result b W Unit :=
  match b, names, context with
  | .win64, names, c =>
    let r := call_syscall_table names (CONTEXT64.Rax c)
      (to_int (CONTEXT64.Rdi c)) (to_int (CONTEXT64.Rsi c)) (to_int (CONTEXT64.Rdx c))
      (to_int (CONTEXT64.R10 c)) (to_int (CONTEXT64.R8 c)) (to_int (CONTEXT64.R9 c)) c world
    match r.outcome with
    | .returned v =>
      { context := { (r.context : CONTEXT64) with Rax := of_int 64 v }, world := r.world,
        events := r.events, outcome := .returned () }
    | .exited code =>
      { context := r.context, world := r.world, events := r.events, outcome := .exited code }
    | .undefined u =>
      { context := r.context, world := r.world, events := r.events, outcome := .undefined u }
  | .win32, names, c =>
    let r := call_syscall_table names (CONTEXT32.Eax c)
      (to_int (CONTEXT32.Ebx c)) (to_int (CONTEXT32.Ecx c)) (to_int (CONTEXT32.Edx c))
      (to_int (CONTEXT32.Esi c)) (to_int (CONTEXT32.Edi c)) (to_int (CONTEXT32.Ebp c)) c world
    match r.outcome with
    | .returned v =>
      { context := { (r.context : CONTEXT32) with Eax := of_int 32 v }, world := r.world,
        events := r.events, outcome := .returned () }
    | .exited code =>
      { context := r.context, world := r.world, events := r.events, outcome := .exited code }
    | .undefined u =>
      { context := r.context, world := r.world, events := r.events, outcome := .undefined u }

/-! ## The exception handler -/

/-- The fields of `EXCEPTION_RECORD` that the handler reads. -/
structure EXCEPTION_RECORD where
  ExceptionCode : Nat
  ExceptionInformation : Nat → Nat

/-- The Windows status code `EXCEPTION_ACCESS_VIOLATION`. -/
def EXCEPTION_ACCESS_VIOLATION : Nat := 0xC0000005

/-- The Windows filter result `EXCEPTION_CONTINUE_EXECUTION`: resume the
thread from the snapshot. -/
def EXCEPTION_CONTINUE_EXECUTION : Int := -1

/-- The Windows filter result `EXCEPTION_CONTINUE_SEARCH`: the exception
is not handled here. -/
def EXCEPTION_CONTINUE_SEARCH : Int := 0

/-- The pseudo handle returned by `GetCurrentProcess()`. -/
def GetCurrentProcess : Int := -1

/-- The addresses of the nine external symbols that bracket the guarded
memory probes (`&mm_check_read_begin` and so on). -/
structure Symbols where
  mm_check_read_begin : Nat
  mm_check_read_end : Nat
  mm_check_read_fail : Nat
  mm_check_read_string_begin : Nat
  mm_check_read_string_end : Nat
  mm_check_read_string_fail : Nat
  mm_check_write_begin : Nat
  mm_check_write_end : Nat
  mm_check_write_fail : Nat
  deriving DecidableEq, Repr

/-- The external collaborators of the file, over a state `W` of the
outside world: the entries of `syscall_table.h`, the byte of memory at an
address, `mm_handle_page_fault` (its result and the world it leaves) and
`tls_gs_emulation` (its result, the snapshot and the world it leaves). -/
structure Env (b : Build) (W : Type) where
  names : List (Handler b W)
  byte : W → Nat → Nat
  mm_handle_page_fault : Nat → W → Bool × W
  tls_gs_emulation : CONTEXT b → Nat → W → Bool × CONTEXT b × W

/-- Lines 101 to 127: one `log_info` per register line of the build. -/
def register_dump : (b : Build) → CONTEXT b → List (Event b)
  | .win64, c =>
    [.log_info "RAX: 0x%p\n" [(CONTEXT64.Rax c : Int)],
     .log_info "RBX: 0x%p\n" [(CONTEXT64.Rbx c : Int)],
     .log_info "RCX: 0x%p\n" [(CONTEXT64.Rcx c : Int)],
     .log_info "RDX: 0x%p\n" [(CONTEXT64.Rdx c : Int)],
     .log_info "RSI: 0x%p\n" [(CONTEXT64.Rsi c : Int)],
     .log_info "RDI: 0x%p\n" [(CONTEXT64.Rdi c : Int)],
     .log_info "RBP: 0x%p\n" [(CONTEXT64.Rbp c : Int)],
     .log_info "RSP: 0x%p\n" [(CONTEXT64.Rsp c : Int)],
     .log_info "R8:  0x%p\n" [(CONTEXT64.R8 c : Int)],
     .log_info "R9:  0x%p\n" [(CONTEXT64.R9 c : Int)],
     .log_info "R10: 0x%p\n" [(CONTEXT64.R10 c : Int)],
     .log_info "R11: 0x%p\n" [(CONTEXT64.R11 c : Int)],
     .log_info "R12: 0x%p\n" [(CONTEXT64.R12 c : Int)],
     .log_info "R13: 0x%p\n" [(CONTEXT64.R13 c : Int)],
     .log_info "R14: 0x%p\n" [(CONTEXT64.R14 c : Int)],
     .log_info "R15: 0x%p\n" [(CONTEXT64.R15 c : Int)]]
  | .win32, c =>
    [.log_info "EAX: 0x%p\n" [(CONTEXT32.Eax c : Int)],
     .log_info "EBX: 0x%p\n" [(CONTEXT32.Ebx c : Int)],
     .log_info "ECX: 0x%p\n" [(CONTEXT32.Ecx c : Int)],
     .log_info "EDX: 0x%p\n" [(CONTEXT32.Edx c : Int)],
     .log_info "ESI: 0x%p\n" [(CONTEXT32.Esi c : Int)],
     .log_info "EDI: 0x%p\n" [(CONTEXT32.Edi c : Int)],
     .log_info "EBP: 0x%p\n" [(CONTEXT32.Eax c : Int)],
     .log_info "ESP: 0x%p\n" [(CONTEXT32.Esp c : Int)]]

/-- Lines 98 to 129: the crash banner, `dump_virtual_memory`,
`mm_dump_stack_trace`, the register lines, `log_shutdown`. -/
def diagnostics (b : Build) (context : CONTEXT b) : List (Event b) :=
  [.log_info "Application crashed, dumping debug information...\n" [],
   .dump_virtual_memory GetCurrentProcess,
   .mm_dump_stack_trace context] ++ register_dump b context ++ [.log_shutdown]

/-- Lines 91 to 96: the error line that names the kind of page fault. -/
def page_fault_kind (b : Build) (er : EXCEPTION_RECORD) (context : CONTEXT b) :
    List (Event b) :=
  if er.ExceptionInformation 0 = 0 then
    [.log_error "Page fault(read): %p at %p\n"
      [(er.ExceptionInformation 1 : Int), (Xip b context : Int)]]
  else if er.ExceptionInformation 0 = 1 then
    [.log_error "Page fault(write): %p at %p\n"
      [(er.ExceptionInformation 1 : Int), (Xip b context : Int)]]
  else if er.ExceptionInformation 0 = 8 then
    [.log_error "Page fault(DEP): %p at %p\n"
      [(er.ExceptionInformation 1 : Int), (Xip b context : Int)]]
  else []

/-- The function `exception_handler`, on the record and the snapshot
that `ep` points to. `done` collects the actions emitted so far on the
path taken. -/
def exception_handler {W : Type} (b : Build) (E : Env b W) (G : Symbols)
    (er : EXCEPTION_RECORD) (context : CONTEXT b) (world : W) : Result b W Int :=
  if er.ExceptionCode = EXCEPTION_ACCESS_VIOLATION then
    let code := Xip b context
    if er.ExceptionInformation 0 = 8 then
      let p1 := E.mm_handle_page_fault code world
      if p1.1 then
        { context := context, world := p1.2,
          events := [.mm_handle_page_fault code],
          outcome := .returned EXCEPTION_CONTINUE_EXECUTION }
      else
        let p2 := E.mm_handle_page_fault (wrap b (code + 0x1000)) p1.2
        if p2.1 then
          { context := context, world := p2.2,
            events := [.mm_handle_page_fault code,
                       .mm_handle_page_fault (wrap b (code + 0x1000))],
            outcome := .returned EXCEPTION_CONTINUE_EXECUTION }
        else
          { context := context, world := p2.2,
            events := [.mm_handle_page_fault code,
                       .mm_handle_page_fault (wrap b (code + 0x1000))] ++
              page_fault_kind b er context ++ diagnostics b context,
            outcome := .returned EXCEPTION_CONTINUE_SEARCH }
    else
      let done : List (Event b) := [.log_info "IP: 0x%p\n" [(Xip b context : Int)]]
      if E.byte world code = 0xCD ∧ E.byte world (wrap b (code + 1)) = 0x80 then
        let d := dispatch_syscall b E.names
          (set_Xip b context (wrap b (Xip b context + 2))) world
        { context := d.context, world := d.world, events := done ++ d.events,
          outcome :=
            match d.outcome with
            | .returned _ => .returned EXCEPTION_CONTINUE_EXECUTION
            | .exited code => .exited code
            | .undefined u => .undefined u }
      else
        let t := E.tls_gs_emulation context code world
        let done := done ++ [.tls_gs_emulation context code]
        if t.1 then
          { context := t.2.1, world := t.2.2, events := done,
            outcome := .returned EXCEPTION_CONTINUE_EXECUTION }
        else
          let p := E.mm_handle_page_fault (er.ExceptionInformation 1) t.2.2
          let done := done ++ [.mm_handle_page_fault (er.ExceptionInformation 1)]
          if p.1 then
            { context := t.2.1, world := p.2, events := done,
              outcome := .returned EXCEPTION_CONTINUE_EXECUTION }
          else if Xip b t.2.1 ≥ G.mm_check_read_begin ∧ Xip b t.2.1 ≤ G.mm_check_read_end then
            { context := set_Xip b t.2.1 G.mm_check_read_fail, world := p.2,
              events := done ++ [.log_warning "mm_check_read() failed at location 0x%x\n"
                [(to_unsigned (er.ExceptionInformation 1) : Int)]],
              outcome := .returned EXCEPTION_CONTINUE_EXECUTION }
          else if Xip b t.2.1 ≥ G.mm_check_read_string_begin ∧
              Xip b t.2.1 ≤ G.mm_check_read_string_end then
            { context := set_Xip b t.2.1 G.mm_check_read_string_fail, world := p.2,
              events := done ++
                [.log_warning "mm_check_read_string() failed at location 0x%x\n"
                  [(to_unsigned (er.ExceptionInformation 1) : Int)]],
              outcome := .returned EXCEPTION_CONTINUE_EXECUTION }
          else if Xip b t.2.1 ≥ G.mm_check_write_begin ∧ Xip b t.2.1 ≤ G.mm_check_write_end then
            { context := set_Xip b t.2.1 G.mm_check_write_fail, world := p.2,
              events := done ++ [.log_warning "mm_check_write() failed at location 0x%x\n"
                [(to_unsigned (er.ExceptionInformation 1) : Int)]],
              outcome := .returned EXCEPTION_CONTINUE_EXECUTION }
          else
            { context := t.2.1, world := p.2,
              events := done ++ page_fault_kind b er t.2.1 ++ diagnostics b t.2.1,
              outcome := .returned EXCEPTION_CONTINUE_SEARCH }
  else
    { context := context, world := world, events := diagnostics b context,
      outcome := .returned EXCEPTION_CONTINUE_SEARCH }

/-! ## Kinds of actions -/

/-- The action is a call through the syscall table. -/
def Event.is_syscall {b : Build} : Event b → Bool
  | .syscall _ _ _ _ _ _ _ _ => true
  | _ => false

/-- The action is a call of `tls_gs_emulation`. -/
def Event.is_tls_gs_emulation {b : Build} : Event b → Bool
  | .tls_gs_emulation _ _ => true
  | _ => false

/-- The action is a call of `mm_handle_page_fault`. -/
def Event.is_mm_handle_page_fault {b : Build} : Event b → Bool
  | .mm_handle_page_fault _ => true
  | _ => false

/-- The action belongs to the diagnostic sequence of lines 98 to 129:
`dump_virtual_memory`, `mm_dump_stack_trace`, `log_shutdown`, or a
`log_info` of that sequence, which is every `log_info` of the file other
than the `IP:` line of line 61. -/
def Event.is_diagnostic {b : Build} : Event b → Bool
  | .dump_virtual_memory _ => true
  | .mm_dump_stack_trace _ => true
  | .log_shutdown => true
  | .log_info fmt _ => fmt != "IP: 0x%p\n"
  | _ => false

/-- The test of line 62: the two bytes at `code` are `0xCD 0x80`. -/
def is_int80 {b : Build} {W : Type} (E : Env b W) (world : W) (code : Nat) : Prop :=
  E.byte world code = 0xCD ∧ E.byte world (wrap b (code + 1)) = 0x80

instance {b : Build} {W : Type} (E : Env b W) (world : W) (code : Nat) :
    Decidable (is_int80 E world code) := by
  unfold is_int80; exact inferInstance

/-- The address lies in the bracket from `lo` to `hi`, both included. -/
def in_bracket (lo hi a : Nat) : Prop := a ≥ lo ∧ a ≤ hi

instance (lo hi a : Nat) : Decidable (in_bracket lo hi a) := by
  unfold in_bracket; exact inferInstance

/-- Two brackets have no address in common: one of them is empty, or one
ends before the other begins. -/
def brackets_disjoint (lo1 hi1 lo2 hi2 : Nat) : Prop :=
  hi1 < lo1 ∨ hi2 < lo2 ∨ hi1 < lo2 ∨ hi2 < lo1

instance (lo1 hi1 lo2 hi2 : Nat) : Decidable (brackets_disjoint lo1 hi1 lo2 hi2) := by
  unfold brackets_disjoint; exact inferInstance

/-- The three guarded brackets are pairwise disjoint. -/
def Symbols.pairwise_disjoint (G : Symbols) : Prop :=
  brackets_disjoint G.mm_check_read_begin G.mm_check_read_end
      G.mm_check_read_string_begin G.mm_check_read_string_end ∧
  brackets_disjoint G.mm_check_read_begin G.mm_check_read_end
      G.mm_check_write_begin G.mm_check_write_end ∧
  brackets_disjoint G.mm_check_read_string_begin G.mm_check_read_string_end
      G.mm_check_write_begin G.mm_check_write_end

instance (G : Symbols) : Decidable G.pairwise_disjoint := by
  unfold Symbols.pairwise_disjoint; exact inferInstance

/-! ## Concrete inputs used by the witnesses -/

/-- A handler that returns 7 when its first argument is 3, and 0 otherwise. -/
def seven_on_three {b : Build} : syscall_fn b Unit :=
  fun a1 _ _ _ _ _ c w => .returns (if a1 = 3 then 7 else 0) c w

/-- A handler that returns -1 and leaves the snapshot alone. -/
def minus_one {b : Build} : syscall_fn b Unit :=
  fun _ _ _ _ _ _ c w => .returns (-1) c w

/-- A syscall list whose entry 42 is `seven_on_three`; entries 1 to 41 are
`sys_unimplemented`, and nothing follows entry 42. -/
def names42 (b : Build) : List (Handler b Unit) :=
  List.replicate 41 .sys_unimplemented ++ [.handler seven_on_three]

/-- A 32-bit snapshot with `Eax = eax`, `Ebx = 3` and `Eip = eip`. -/
def context32 (eax eip : Nat) : CONTEXT32 :=
  { Eax := eax, Ebx := 3, Ecx := 0, Edx := 0, Esi := 0, Edi := 0, Ebp := 0,
    Esp := 0x7000, Eip := eip }

/-- A 64-bit snapshot with `Rax = rax`, `Rdi = 3` and `Rip = rip`. -/
def context64 (rax rip : Nat) : CONTEXT64 :=
  { Rax := rax, Rbx := 0, Rcx := 0, Rdx := 0, Rsi := 0, Rdi := 3, Rbp := 0,
    Rsp := 0x7000, R8 := 0, R9 := 0, R10 := 0, R11 := 0, R12 := 0, R13 := 0,
    R14 := 0, R15 := 0, Rip := rip }

/-- An environment over the trivial world: `INT 80h` at the addresses
`int80_at` and `int80_at + 1` only, an emulator that answers `tls` and
leaves the snapshot alone, a memory manager that resolves exactly the
addresses in `mapped`. -/
def env_of (b : Build) (int80_at : Nat) (tls : Bool) (mapped : List Nat) : Env b Unit :=
  { names := names42 b,
    byte := fun _ a => if a = int80_at then 0xCD else if a = int80_at + 1 then 0x80 else 0x90,
    mm_handle_page_fault := fun a w => (decide (a ∈ mapped), w),
    tls_gs_emulation := fun c _ w => (tls, c, w) }

/-- Three disjoint brackets. -/
def symbols : Symbols :=
  { mm_check_read_begin := 0x401000, mm_check_read_end := 0x401010,
    mm_check_read_fail := 0x401020,
    mm_check_read_string_begin := 0x402000, mm_check_read_string_end := 0x402010,
    mm_check_read_string_fail := 0x402020,
    mm_check_write_begin := 0x403000, mm_check_write_end := 0x403010,
    mm_check_write_fail := 0x403020 }

/-- An access violation record with access type `kind` and faulting
address `addr`. -/
def access_violation (kind addr : Nat) : EXCEPTION_RECORD :=
  { ExceptionCode := EXCEPTION_ACCESS_VIOLATION,
    ExceptionInformation := fun i => if i = 0 then kind else if i = 1 then addr else 0 }

/-! ## Further kinds of actions and predicates on a run -/

/-- Assignment to the accumulator register of the build. -/
def set_accumulator : (b : Build) → CONTEXT b → Nat → CONTEXT b
  | .win32, c, v => { (c : CONTEXT32) with Eax := v }
  | .win64, c, v => { (c : CONTEXT64) with Rax := v }

/-- The format of a `log_info` line. -/
def Event.log_info_format {b : Build} : Event b → Option String
  | .log_info fmt _ => some fmt
  | _ => none

/-- The action is the call of `log_shutdown`. -/
def Event.is_log_shutdown {b : Build} : Event b → Bool
  | .log_shutdown => true
  | _ => false

/-- The action is a call of `log_error`. -/
def Event.is_log_error {b : Build} : Event b → Bool
  | .log_error _ _ => true
  | _ => false

/-- No step of the handler claims the exception: its code is not
`EXCEPTION_ACCESS_VIOLATION`; or it is an execute fault that the memory
manager resolves neither at the instruction pointer nor `0x1000` further;
or it is another access violation, not on `INT 80h`, that the segment
emulator and the memory manager decline and whose instruction pointer (in
the snapshot the emulator left) is in none of the three brackets. -/
def unclaimed {b : Build} {W : Type} (E : Env b W) (G : Symbols) (er : EXCEPTION_RECORD)
    (c : CONTEXT b) (w : W) : Prop :=
  er.ExceptionCode ≠ EXCEPTION_ACCESS_VIOLATION ∨
  (er.ExceptionCode = EXCEPTION_ACCESS_VIOLATION ∧ er.ExceptionInformation 0 = 8 ∧
    (E.mm_handle_page_fault (Xip b c) w).1 = false ∧
    (E.mm_handle_page_fault (wrap b (Xip b c + 0x1000))
      (E.mm_handle_page_fault (Xip b c) w).2).1 = false) ∨
  (er.ExceptionCode = EXCEPTION_ACCESS_VIOLATION ∧ er.ExceptionInformation 0 ≠ 8 ∧
    ¬ is_int80 E w (Xip b c) ∧
    (E.tls_gs_emulation c (Xip b c) w).1 = false ∧
    (E.mm_handle_page_fault (er.ExceptionInformation 1)
      (E.tls_gs_emulation c (Xip b c) w).2.2).1 = false ∧
    ¬ in_bracket G.mm_check_read_begin G.mm_check_read_end
      (Xip b (E.tls_gs_emulation c (Xip b c) w).2.1) ∧
    ¬ in_bracket G.mm_check_read_string_begin G.mm_check_read_string_end
      (Xip b (E.tls_gs_emulation c (Xip b c) w).2.1) ∧
    ¬ in_bracket G.mm_check_write_begin G.mm_check_write_end
      (Xip b (E.tls_gs_emulation c (Xip b c) w).2.1))

instance {b : Build} {W : Type} (E : Env b W) (G : Symbols) (er : EXCEPTION_RECORD)
    (c : CONTEXT b) (w : W) : Decidable (unclaimed E G er c w) := by
  unfold unclaimed; exact inferInstance

/-- The registers of the build's layout in the order of the dump: the
format of the line that bears the register's name, and the read of that
register. -/
def registers : (b : Build) → List (String × (CONTEXT b → Nat))
  | .win64 =>
    [("RAX: 0x%p\n", CONTEXT64.Rax), ("RBX: 0x%p\n", CONTEXT64.Rbx),
     ("RCX: 0x%p\n", CONTEXT64.Rcx), ("RDX: 0x%p\n", CONTEXT64.Rdx),
     ("RSI: 0x%p\n", CONTEXT64.Rsi), ("RDI: 0x%p\n", CONTEXT64.Rdi),
     ("RBP: 0x%p\n", CONTEXT64.Rbp), ("RSP: 0x%p\n", CONTEXT64.Rsp),
     ("R8:  0x%p\n", CONTEXT64.R8), ("R9:  0x%p\n", CONTEXT64.R9),
     ("R10: 0x%p\n", CONTEXT64.R10), ("R11: 0x%p\n", CONTEXT64.R11),
     ("R12: 0x%p\n", CONTEXT64.R12), ("R13: 0x%p\n", CONTEXT64.R13),
     ("R14: 0x%p\n", CONTEXT64.R14), ("R15: 0x%p\n", CONTEXT64.R15)]
  | .win32 =>
    [("EAX: 0x%p\n", CONTEXT32.Eax), ("EBX: 0x%p\n", CONTEXT32.Ebx),
     ("ECX: 0x%p\n", CONTEXT32.Ecx), ("EDX: 0x%p\n", CONTEXT32.Edx),
     ("ESI: 0x%p\n", CONTEXT32.Esi), ("EDI: 0x%p\n", CONTEXT32.Edi),
     ("EBP: 0x%p\n", CONTEXT32.Ebp), ("ESP: 0x%p\n", CONTEXT32.Esp)]

/-- The dump that logs, for each register of the layout, one line with the
register's name and the value the register holds in the snapshot. -/
def named_register_lines (b : Build) (c : CONTEXT b) : List (Event b) :=
  (registers b).map (fun p => .log_info p.1 [(p.2 c : Int)])

/-! ## Facts about the conversions and the table -/

theorem as_int_of_range (r : Int) (h1 : -2 ^ 31 ≤ r) (h2 : r < 2 ^ 31) : as_int r = r := by
  unfold as_int; omega

theorem to_int_zero : to_int 0 = 0 := by decide

theorem syscall_table_length {b : Build} {W : Type} (names : List (Handler b W)) :
    (syscall_table names).length = SYSCALL_COUNT := by
  simp [syscall_table, SYSCALL_COUNT]; omega

theorem syscall_table_get?_of_le {b : Build} {W : Type} (names : List (Handler b W))
    (n : Nat) (hn : SYSCALL_COUNT ≤ n) : (syscall_table names).get? n = none := by
  rw [List.get?_eq_none, syscall_table_length]; exact hn

theorem syscall_table_get?_zero {b : Build} {W : Type} (names : List (Handler b W)) :
    (syscall_table names).get? 0 = some (some .sys_unimplemented) := by
  simp [syscall_table, SYSCALL_COUNT]

theorem Xip_set_Xip (b : Build) (c : CONTEXT b) (v : Nat) : Xip b (set_Xip b c v) = v := by
  cases b <;> rfl

theorem accumulator_set_Xip (b : Build) (c : CONTEXT b) (v : Nat) :
    accumulator b (set_Xip b c v) = accumulator b c := by
  cases b <;> rfl

theorem wrap_of_lt (b : Build) (n : Nat) (h : n < 2 ^ b.bits) : wrap b n = n :=
  Nat.mod_eq_of_lt h

/-- The table is read past its end when the accumulator is 338 or more:
no handler is called and nothing is emitted. -/
theorem dispatch_syscall_of_le {W : Type} (b : Build) (names : List (Handler b W))
    (c : CONTEXT b) (w : W) (h : SYSCALL_COUNT ≤ accumulator b c) :
    dispatch_syscall b names c w =
      { context := c, world := w, events := [],
        outcome := .undefined (.out_of_bounds (accumulator b c)) } := by
  cases b <;>
    simp only [accumulator] at h <;>
    simp only [dispatch_syscall, call_syscall_table, syscall_table_get?_of_le _ _ h, accumulator]

/-- Dispatch of syscall number 0: the fallback logs and exits. -/
theorem dispatch_syscall_zero {W : Type} (b : Build) (names : List (Handler b W))
    (c : CONTEXT b) (w : W) (h : accumulator b c = 0) :
    ∃ a1 a2 a3 a4 a5 a6 : Int, dispatch_syscall b names c w =
      { context := c, world := w,
        events := [.syscall 0 a1 a2 a3 a4 a5 a6 c,
                   .log_error "FATAL: Unimplemented syscall: %d\n" [0],
                   .ExitProcess 1],
        outcome := .exited 1 } := by
  cases b <;>
    simp only [accumulator] at h <;>
    simp only [dispatch_syscall, call_syscall_table, h, syscall_table_get?_zero,
      sys_unimplemented, to_int_zero] <;>
    exact ⟨_, _, _, _, _, _, rfl⟩

/-- The dispatcher emits no call of the memory manager or of the segment
emulator and no diagnostic action. -/
theorem dispatch_syscall_events {W : Type} (b : Build) (names : List (Handler b W))
    (c : CONTEXT b) (w : W) :
    ∀ e ∈ (dispatch_syscall b names c w).events,
      e.is_mm_handle_page_fault = false ∧ e.is_tls_gs_emulation = false ∧
      e.is_diagnostic = false := by
  cases b
  · simp only [dispatch_syscall, call_syscall_table]
    split <;> try split
    all_goals (try split)
    all_goals simp [sys_unimplemented, Event.is_mm_handle_page_fault,
      Event.is_tls_gs_emulation, Event.is_diagnostic]
  · simp only [dispatch_syscall, call_syscall_table]
    split <;> try split
    all_goals (try split)
    all_goals simp [sys_unimplemented, Event.is_mm_handle_page_fault,
      Event.is_tls_gs_emulation, Event.is_diagnostic]

/-! ## The paths of `exception_handler`

One lemma per path through the function: the hypotheses are the tests
taken on the path, the conclusion is the whole result. -/

section paths

variable {W : Type} (b : Build) (E : Env b W) (G : Symbols) (er : EXCEPTION_RECORD)
  (c : CONTEXT b) (w : W)

/-- Line 49 fails: the diagnostic sequence runs at once. -/
theorem exception_handler_other_code (hc : er.ExceptionCode ≠ EXCEPTION_ACCESS_VIOLATION) :
    exception_handler b E G er c w =
      { context := c, world := w, events := diagnostics b c,
        outcome := .returned EXCEPTION_CONTINUE_SEARCH } := by
  simp only [exception_handler, if_neg hc]

/-- Lines 54 and 55: the page at the instruction pointer is resolved. -/
theorem exception_handler_execute_first (hc : er.ExceptionCode = EXCEPTION_ACCESS_VIOLATION)
    (h8 : er.ExceptionInformation 0 = 8)
    (h1 : (E.mm_handle_page_fault (Xip b c) w).1 = true) :
    exception_handler b E G er c w =
      { context := c, world := (E.mm_handle_page_fault (Xip b c) w).2,
        events := [.mm_handle_page_fault (Xip b c)],
        outcome := .returned EXCEPTION_CONTINUE_EXECUTION } := by
  simp only [exception_handler, if_pos hc, if_pos h8, h1, if_true]

/-- Lines 56 and 57: the page after it is resolved. -/
theorem exception_handler_execute_second (hc : er.ExceptionCode = EXCEPTION_ACCESS_VIOLATION)
    (h8 : er.ExceptionInformation 0 = 8)
    (h1 : (E.mm_handle_page_fault (Xip b c) w).1 = false)
    (h2 : (E.mm_handle_page_fault (wrap b (Xip b c + 0x1000))
            (E.mm_handle_page_fault (Xip b c) w).2).1 = true) :
    exception_handler b E G er c w =
      { context := c,
        world := (E.mm_handle_page_fault (wrap b (Xip b c + 0x1000))
                   (E.mm_handle_page_fault (Xip b c) w).2).2,
        events := [.mm_handle_page_fault (Xip b c),
                   .mm_handle_page_fault (wrap b (Xip b c + 0x1000))],
        outcome := .returned EXCEPTION_CONTINUE_EXECUTION } := by
  simp only [exception_handler, if_pos hc, if_pos h8, h1, h2, if_true, Bool.false_eq_true,
    if_false]

/-- Execute fault that the memory manager resolves at neither address. -/
theorem exception_handler_execute_none (hc : er.ExceptionCode = EXCEPTION_ACCESS_VIOLATION)
    (h8 : er.ExceptionInformation 0 = 8)
    (h1 : (E.mm_handle_page_fault (Xip b c) w).1 = false)
    (h2 : (E.mm_handle_page_fault (wrap b (Xip b c + 0x1000))
            (E.mm_handle_page_fault (Xip b c) w).2).1 = false) :
    exception_handler b E G er c w =
      { context := c,
        world := (E.mm_handle_page_fault (wrap b (Xip b c + 0x1000))
                   (E.mm_handle_page_fault (Xip b c) w).2).2,
        events := [.mm_handle_page_fault (Xip b c),
                   .mm_handle_page_fault (wrap b (Xip b c + 0x1000))] ++
          page_fault_kind b er c ++ diagnostics b c,
        outcome := .returned EXCEPTION_CONTINUE_SEARCH } := by
  simp only [exception_handler, if_pos hc, if_pos h8, h1, h2, Bool.false_eq_true, if_false]

/-- Lines 62 to 66: `INT 80h` at the instruction pointer. -/
theorem exception_handler_int80 (hc : er.ExceptionCode = EXCEPTION_ACCESS_VIOLATION)
    (h8 : er.ExceptionInformation 0 ≠ 8) (hi : is_int80 E w (Xip b c)) :
    exception_handler b E G er c w =
      { context := (dispatch_syscall b E.names
          (set_Xip b c (wrap b (Xip b c + 2))) w).context,
        world := (dispatch_syscall b E.names (set_Xip b c (wrap b (Xip b c + 2))) w).world,
        events := .log_info "IP: 0x%p\n" [(Xip b c : Int)] ::
          (dispatch_syscall b E.names (set_Xip b c (wrap b (Xip b c + 2))) w).events,
        outcome :=
          match (dispatch_syscall b E.names
              (set_Xip b c (wrap b (Xip b c + 2))) w).outcome with
          | .returned _ => .returned EXCEPTION_CONTINUE_EXECUTION
          | .exited code => .exited code
          | .undefined u => .undefined u } := by
  unfold is_int80 at hi
  simp only [exception_handler, if_pos hc, if_neg h8, if_pos hi, List.singleton_append]

/-- Lines 68 and 69: the segment emulator handles the fault. -/
theorem exception_handler_tls (hc : er.ExceptionCode = EXCEPTION_ACCESS_VIOLATION)
    (h8 : er.ExceptionInformation 0 ≠ 8) (hi : ¬ is_int80 E w (Xip b c))
    (ht : (E.tls_gs_emulation c (Xip b c) w).1 = true) :
    exception_handler b E G er c w =
      { context := (E.tls_gs_emulation c (Xip b c) w).2.1,
        world := (E.tls_gs_emulation c (Xip b c) w).2.2,
        events := [.log_info "IP: 0x%p\n" [(Xip b c : Int)],
                   .tls_gs_emulation c (Xip b c)],
        outcome := .returned EXCEPTION_CONTINUE_EXECUTION } := by
  unfold is_int80 at hi
  simp only [exception_handler, if_pos hc, if_neg h8, if_neg hi, ht, if_true,
    List.singleton_append]

/-- Lines 70 and 71: the memory manager resolves the faulting address. -/
theorem exception_handler_mm (hc : er.ExceptionCode = EXCEPTION_ACCESS_VIOLATION)
    (h8 : er.ExceptionInformation 0 ≠ 8) (hi : ¬ is_int80 E w (Xip b c))
    (ht : (E.tls_gs_emulation c (Xip b c) w).1 = false)
    (hm : (E.mm_handle_page_fault (er.ExceptionInformation 1)
            (E.tls_gs_emulation c (Xip b c) w).2.2).1 = true) :
    exception_handler b E G er c w =
      { context := (E.tls_gs_emulation c (Xip b c) w).2.1,
        world := (E.mm_handle_page_fault (er.ExceptionInformation 1)
                   (E.tls_gs_emulation c (Xip b c) w).2.2).2,
        events := [.log_info "IP: 0x%p\n" [(Xip b c : Int)],
                   .tls_gs_emulation c (Xip b c),
                   .mm_handle_page_fault (er.ExceptionInformation 1)],
        outcome := .returned EXCEPTION_CONTINUE_EXECUTION } := by
  unfold is_int80 at hi
  simp only [exception_handler, if_pos hc, if_neg h8, if_neg hi, ht, hm, if_true,
    Bool.false_eq_true, if_false, List.singleton_append, List.cons_append, List.nil_append]

/-- Lines 72 to 77: the instruction pointer is in the read bracket. -/
theorem exception_handler_read (hc : er.ExceptionCode = EXCEPTION_ACCESS_VIOLATION)
    (h8 : er.ExceptionInformation 0 ≠ 8) (hi : ¬ is_int80 E w (Xip b c))
    (ht : (E.tls_gs_emulation c (Xip b c) w).1 = false)
    (hm : (E.mm_handle_page_fault (er.ExceptionInformation 1)
            (E.tls_gs_emulation c (Xip b c) w).2.2).1 = false)
    (hr : in_bracket G.mm_check_read_begin G.mm_check_read_end
            (Xip b (E.tls_gs_emulation c (Xip b c) w).2.1)) :
    exception_handler b E G er c w =
      { context := set_Xip b (E.tls_gs_emulation c (Xip b c) w).2.1 G.mm_check_read_fail,
        world := (E.mm_handle_page_fault (er.ExceptionInformation 1)
                   (E.tls_gs_emulation c (Xip b c) w).2.2).2,
        events := [.log_info "IP: 0x%p\n" [(Xip b c : Int)],
                   .tls_gs_emulation c (Xip b c),
                   .mm_handle_page_fault (er.ExceptionInformation 1),
                   .log_warning "mm_check_read() failed at location 0x%x\n"
                     [(to_unsigned (er.ExceptionInformation 1) : Int)]],
        outcome := .returned EXCEPTION_CONTINUE_EXECUTION } := by
  unfold is_int80 at hi
  unfold in_bracket at hr
  simp only [exception_handler, if_pos hc, if_neg h8, if_neg hi, ht, hm, if_pos hr,
    Bool.false_eq_true, if_false, List.singleton_append, List.cons_append, List.nil_append]

/-- Lines 78 to 83: the instruction pointer is in the read-string bracket
and not in the read bracket. -/
theorem exception_handler_read_string (hc : er.ExceptionCode = EXCEPTION_ACCESS_VIOLATION)
    (h8 : er.ExceptionInformation 0 ≠ 8) (hi : ¬ is_int80 E w (Xip b c))
    (ht : (E.tls_gs_emulation c (Xip b c) w).1 = false)
    (hm : (E.mm_handle_page_fault (er.ExceptionInformation 1)
            (E.tls_gs_emulation c (Xip b c) w).2.2).1 = false)
    (hr : ¬ in_bracket G.mm_check_read_begin G.mm_check_read_end
            (Xip b (E.tls_gs_emulation c (Xip b c) w).2.1))
    (hs : in_bracket G.mm_check_read_string_begin G.mm_check_read_string_end
            (Xip b (E.tls_gs_emulation c (Xip b c) w).2.1)) :
    exception_handler b E G er c w =
      { context :=
          set_Xip b (E.tls_gs_emulation c (Xip b c) w).2.1 G.mm_check_read_string_fail,
        world := (E.mm_handle_page_fault (er.ExceptionInformation 1)
                   (E.tls_gs_emulation c (Xip b c) w).2.2).2,
        events := [.log_info "IP: 0x%p\n" [(Xip b c : Int)],
                   .tls_gs_emulation c (Xip b c),
                   .mm_handle_page_fault (er.ExceptionInformation 1),
                   .log_warning "mm_check_read_string() failed at location 0x%x\n"
                     [(to_unsigned (er.ExceptionInformation 1) : Int)]],
        outcome := .returned EXCEPTION_CONTINUE_EXECUTION } := by
  unfold is_int80 at hi
  unfold in_bracket at hr hs
  simp only [exception_handler, if_pos hc, if_neg h8, if_neg hi, ht, hm, if_neg hr, if_pos hs,
    Bool.false_eq_true, if_false, List.singleton_append, List.cons_append, List.nil_append]

/-- Lines 84 to 89: the instruction pointer is in the write bracket and in
neither of the other two. -/
theorem exception_handler_write (hc : er.ExceptionCode = EXCEPTION_ACCESS_VIOLATION)
    (h8 : er.ExceptionInformation 0 ≠ 8) (hi : ¬ is_int80 E w (Xip b c))
    (ht : (E.tls_gs_emulation c (Xip b c) w).1 = false)
    (hm : (E.mm_handle_page_fault (er.ExceptionInformation 1)
            (E.tls_gs_emulation c (Xip b c) w).2.2).1 = false)
    (hr : ¬ in_bracket G.mm_check_read_begin G.mm_check_read_end
            (Xip b (E.tls_gs_emulation c (Xip b c) w).2.1))
    (hs : ¬ in_bracket G.mm_check_read_string_begin G.mm_check_read_string_end
            (Xip b (E.tls_gs_emulation c (Xip b c) w).2.1))
    (hw : in_bracket G.mm_check_write_begin G.mm_check_write_end
            (Xip b (E.tls_gs_emulation c (Xip b c) w).2.1)) :
    exception_handler b E G er c w =
      { context := set_Xip b (E.tls_gs_emulation c (Xip b c) w).2.1 G.mm_check_write_fail,
        world := (E.mm_handle_page_fault (er.ExceptionInformation 1)
                   (E.tls_gs_emulation c (Xip b c) w).2.2).2,
        events := [.log_info "IP: 0x%p\n" [(Xip b c : Int)],
                   .tls_gs_emulation c (Xip b c),
                   .mm_handle_page_fault (er.ExceptionInformation 1),
                   .log_warning "mm_check_write() failed at location 0x%x\n"
                     [(to_unsigned (er.ExceptionInformation 1) : Int)]],
        outcome := .returned EXCEPTION_CONTINUE_EXECUTION } := by
  unfold is_int80 at hi
  unfold in_bracket at hr hs hw
  simp only [exception_handler, if_pos hc, if_neg h8, if_neg hi, ht, hm, if_neg hr, if_neg hs,
    if_pos hw, Bool.false_eq_true, if_false, List.singleton_append, List.cons_append,
    List.nil_append]

/-- Non-execute access violation that no step claims. -/
theorem exception_handler_unclaimed (hc : er.ExceptionCode = EXCEPTION_ACCESS_VIOLATION)
    (h8 : er.ExceptionInformation 0 ≠ 8) (hi : ¬ is_int80 E w (Xip b c))
    (ht : (E.tls_gs_emulation c (Xip b c) w).1 = false)
    (hm : (E.mm_handle_page_fault (er.ExceptionInformation 1)
            (E.tls_gs_emulation c (Xip b c) w).2.2).1 = false)
    (hr : ¬ in_bracket G.mm_check_read_begin G.mm_check_read_end
            (Xip b (E.tls_gs_emulation c (Xip b c) w).2.1))
    (hs : ¬ in_bracket G.mm_check_read_string_begin G.mm_check_read_string_end
            (Xip b (E.tls_gs_emulation c (Xip b c) w).2.1))
    (hw : ¬ in_bracket G.mm_check_write_begin G.mm_check_write_end
            (Xip b (E.tls_gs_emulation c (Xip b c) w).2.1)) :
    exception_handler b E G er c w =
      { context := (E.tls_gs_emulation c (Xip b c) w).2.1,
        world := (E.mm_handle_page_fault (er.ExceptionInformation 1)
                   (E.tls_gs_emulation c (Xip b c) w).2.2).2,
        events := [.log_info "IP: 0x%p\n" [(Xip b c : Int)],
                   .tls_gs_emulation c (Xip b c),
                   .mm_handle_page_fault (er.ExceptionInformation 1)] ++
          page_fault_kind b er (E.tls_gs_emulation c (Xip b c) w).2.1 ++
          diagnostics b (E.tls_gs_emulation c (Xip b c) w).2.1,
        outcome := .returned EXCEPTION_CONTINUE_SEARCH } := by
  unfold is_int80 at hi
  unfold in_bracket at hr hs hw
  simp only [exception_handler, if_pos hc, if_neg h8, if_neg hi, ht, hm, if_neg hr, if_neg hs,
    if_neg hw, Bool.false_eq_true, if_false, List.singleton_append, List.cons_append,
    List.nil_append]

end paths

/-- The diagnostic sequence is made of diagnostic actions only. -/
theorem diagnostics_kinds (b : Build) (c : CONTEXT b) :
    ∀ e ∈ diagnostics b c,
      e.is_diagnostic = true ∧ e.is_syscall = false ∧ e.is_tls_gs_emulation = false ∧
      e.is_mm_handle_page_fault = false := by
  cases b <;>
    simp [diagnostics, register_dump, Event.is_diagnostic, Event.is_syscall,
      Event.is_tls_gs_emulation, Event.is_mm_handle_page_fault]

/-- The page-fault line is an error line. -/
theorem page_fault_kind_kinds (b : Build) (er : EXCEPTION_RECORD) (c : CONTEXT b) :
    ∀ e ∈ page_fault_kind b er c,
      e.is_syscall = false ∧ e.is_tls_gs_emulation = false ∧
      e.is_mm_handle_page_fault = false := by
  unfold page_fault_kind
  split_ifs <;>
    simp [Event.is_syscall, Event.is_tls_gs_emulation, Event.is_mm_handle_page_fault]

/-- The diagnostic sequence ends with the virtual-memory dump, the stack
trace of the snapshot, the register lines and `log_shutdown`, in this order. -/
theorem diagnostics_eq (b : Build) (c : CONTEXT b) :
    diagnostics b c =
      [.log_info "Application crashed, dumping debug information...\n" []] ++
      ([.dump_virtual_memory GetCurrentProcess, .mm_dump_stack_trace c] ++
        register_dump b c ++ [.log_shutdown]) := by
  simp [diagnostics]

/-- The register lines of the dump: their formats in order, and, apart
from the seventh line of the 32-bit build, the value of the register that
each line names. -/
theorem register_dump_lines (b : Build) (c : CONTEXT b) :
    (register_dump b c).map Event.log_info_format =
      (match b with
        | .win32 =>
          ["EAX: 0x%p\n", "EBX: 0x%p\n", "ECX: 0x%p\n", "EDX: 0x%p\n", "ESI: 0x%p\n",
           "EDI: 0x%p\n", "EBP: 0x%p\n", "ESP: 0x%p\n"]
        | .win64 =>
          ["RAX: 0x%p\n", "RBX: 0x%p\n", "RCX: 0x%p\n", "RDX: 0x%p\n", "RSI: 0x%p\n",
           "RDI: 0x%p\n", "RBP: 0x%p\n", "RSP: 0x%p\n", "R8:  0x%p\n", "R9:  0x%p\n",
           "R10: 0x%p\n", "R11: 0x%p\n", "R12: 0x%p\n", "R13: 0x%p\n", "R14: 0x%p\n",
           "R15: 0x%p\n"]).map some ∧
    ∀ i, (b = .win32 → i ≠ 6) →
      (register_dump b c).get? i = (named_register_lines b c).get? i := by
  cases b
  · refine ⟨rfl, ?_⟩
    intro i hi
    match i, hi with
    | 0, _ => rfl
    | 1, _ => rfl
    | 2, _ => rfl
    | 3, _ => rfl
    | 4, _ => rfl
    | 5, _ => rfl
    | 6, hi => exact absurd rfl (hi rfl)
    | 7, _ => rfl
    | n + 8, _ => rfl
  · exact ⟨rfl, fun i _ => rfl⟩

/-- The test `brackets_disjoint` says that no address lies in both brackets. -/
theorem brackets_disjoint_iff (lo1 hi1 lo2 hi2 : Nat) :
    brackets_disjoint lo1 hi1 lo2 hi2 ↔
      ∀ a, ¬ (in_bracket lo1 hi1 a ∧ in_bracket lo2 hi2 a) := by
  unfold brackets_disjoint in_bracket
  constructor
  · intro h a
    omega
  · intro h
    by_contra hn
    have h1 := h lo1
    have h2 := h lo2
    omega

theorem set_Xip_Xip (b : Build) (c : CONTEXT b) (v : Nat) :
    set_Xip b (set_Xip b c v) (Xip b c) = c := by
  cases b <;> rfl

/-- The two results of the handler are different values. -/
theorem returned_search_ne_execution :
    (Outcome.returned EXCEPTION_CONTINUE_SEARCH : Outcome Int) ≠
      .returned EXCEPTION_CONTINUE_EXECUTION := by
  decide

/-! ## The dispatcher -/

/-- Claim C2, refuted on the code: with accumulator 338, one past the last
slot, `dispatch_syscall` reads `syscall_table[338]`, outside the array; it
does not reach `sys_unimplemented`, emits no `ExitProcess(1)`, and the
process does not exit with status 1. The same holds in both builds. -/
theorem dispatch_syscall_338_out_of_bounds :
    (syscall_table (names42 .win32)).length = 338 ∧
    dispatch_syscall .win32 (names42 .win32) (context32 338 0x1000) () =
      { context := context32 338 0x1000, world := (), events := [],
        outcome := .undefined (.out_of_bounds 338) } ∧
    dispatch_syscall .win64 (names42 .win64) (context64 338 0x1000) () =
      { context := context64 338 0x1000, world := (), events := [],
        outcome := .undefined (.out_of_bounds 338) } ∧
    (dispatch_syscall .win32 (names42 .win32) (context32 338 0x1000) ()).outcome ≠
      .exited 1 :=
  ⟨syscall_table_length _,
   dispatch_syscall_of_le .win32 (names42 .win32) (context32 338 0x1000) () (by decide),
   dispatch_syscall_of_le .win64 (names42 .win64) (context64 338 0x1000) () (by decide),
   by rw [dispatch_syscall_of_le .win32 (names42 .win32) (context32 338 0x1000) ()
        (by decide)]; simp⟩

/-- Claim C7: with accumulator 0, `dispatch_syscall` calls through slot 0,
which is `sys_unimplemented`; that logs the error line with the number 0
taken from the accumulator and calls `ExitProcess(1)`; the process exits
with status 1, the snapshot is left as it was (no result is written to the
accumulator), and `exception_handler`, reaching the dispatcher through
`INT 80h`, ends with the process exited and so returns nothing: its last
two actions are the error line and `ExitProcess(1)`. -/
theorem syscall_zero_exits {W : Type} (b : Build) (E : Env b W) (G : Symbols)
    (er : EXCEPTION_RECORD) (c : CONTEXT b) (w : W) (h0 : accumulator b c = 0) :
    (∃ a1 a2 a3 a4 a5 a6 : Int, dispatch_syscall b E.names c w =
      { context := c, world := w,
        events := [.syscall 0 a1 a2 a3 a4 a5 a6 c,
                   .log_error "FATAL: Unimplemented syscall: %d\n" [0],
                   .ExitProcess 1],
        outcome := .exited 1 }) ∧
    (er.ExceptionCode = EXCEPTION_ACCESS_VIOLATION → er.ExceptionInformation 0 ≠ 8 →
      is_int80 E w (Xip b c) →
      (exception_handler b E G er c w).outcome = .exited 1 ∧
      (∀ v, (exception_handler b E G er c w).outcome ≠ .returned v) ∧
      accumulator b (exception_handler b E G er c w).context = 0 ∧
      ∃ a1 a2 a3 a4 a5 a6 : Int, (exception_handler b E G er c w).events =
        [.log_info "IP: 0x%p\n" [(Xip b c : Int)],
         .syscall 0 a1 a2 a3 a4 a5 a6 (set_Xip b c (wrap b (Xip b c + 2))),
         .log_error "FATAL: Unimplemented syscall: %d\n" [0],
         .ExitProcess 1]) := by
  refine ⟨dispatch_syscall_zero b E.names c w h0, ?_⟩
  intro hc h8 hi
  have h0n : accumulator b (set_Xip b c (wrap b (Xip b c + 2))) = 0 := by
    rw [accumulator_set_Xip]; exact h0
  obtain ⟨a1, a2, a3, a4, a5, a6, hd⟩ :=
    dispatch_syscall_zero b E.names (set_Xip b c (wrap b (Xip b c + 2))) w h0n
  rw [exception_handler_int80 b E G er c w hc h8 hi, hd]
  refine ⟨rfl, ?_, h0n, a1, a2, a3, a4, a5, a6, rfl⟩
  intro v hv
  cases hv

/-- Witness of claim C7: a 32-bit snapshot with `Eax = 0` that faults on
`INT 80h` at `0x1000`. -/
theorem syscall_zero_exits_witness :
    (exception_handler .win32 (env_of .win32 0x1000 false []) symbols
        (access_violation 0 0xFFFFFFFF) (context32 0 0x1000) ()).outcome = .exited 1 :=
  ((syscall_zero_exits .win32 (env_of .win32 0x1000 false []) symbols
      (access_violation 0 0xFFFFFFFF) (context32 0 0x1000) () rfl).2
    rfl (by decide) (by decide)).1

/-! ## The fault classifier -/

/-- Claim C3 as stated fails: a read access violation raised on `INT 80h`
at `0x1000` with `Eax = 0` meets every condition of the claim, but the
dispatcher reaches `sys_unimplemented`, the process exits with status 1
and the handler does not return `EXCEPTION_CONTINUE_EXECUTION`. -/
theorem int80_dispatch_counterexample :
    (access_violation 0 0xFFFFFFFF).ExceptionCode = EXCEPTION_ACCESS_VIOLATION ∧
    (access_violation 0 0xFFFFFFFF).ExceptionInformation 0 ≠ 8 ∧
    is_int80 (env_of .win32 0x1000 false []) () (Xip .win32 (context32 0 0x1000)) ∧
    (exception_handler .win32 (env_of .win32 0x1000 false []) symbols
      (access_violation 0 0xFFFFFFFF) (context32 0 0x1000) ()).outcome = .exited 1 ∧
    (exception_handler .win32 (env_of .win32 0x1000 false []) symbols
      (access_violation 0 0xFFFFFFFF) (context32 0 0x1000) ()).outcome ≠
      .returned EXCEPTION_CONTINUE_EXECUTION ∧
    (exception_handler .win32 (env_of .win32 0x1000 false []) symbols
      (access_violation 0 0xFFFFFFFF) (context32 0 0x1000) ()).events =
      [.log_info "IP: 0x%p\n" [0x1000],
       .syscall 0 3 0 0 0 0 0 (context32 0 0x1002),
       .log_error "FATAL: Unimplemented syscall: %d\n" [0],
       .ExitProcess 1] := by
  refine ⟨rfl, by decide, by decide, rfl, ?_, rfl⟩
  intro h
  have h1 : (exception_handler .win32 (env_of .win32 0x1000 false []) symbols
      (access_violation 0 0xFFFFFFFF) (context32 0 0x1000) ()).outcome = .exited 1 := rfl
  rw [h1] at h
  cases h

/-- Claim C3, amended: for an access violation whose access type is not 8
and whose two bytes at the instruction pointer `X` are `0xCD 0x80`, the
handler runs `dispatch_syscall` once, on the entry snapshot with the
instruction pointer alone changed, to `X + 2` in the arithmetic of the
register (`X + 2` itself whenever that fits the register); what the
handler leaves is the snapshot and world the dispatcher left, its actions
are the `IP:` line followed by the dispatcher's, and it returns
`EXCEPTION_CONTINUE_EXECUTION` when the dispatcher returns; when the
dispatcher ends the process, the handler ends with the process exited and
returns nothing. -/
theorem exception_handler_int80_dispatch {W : Type} (b : Build) (E : Env b W) (G : Symbols)
    (er : EXCEPTION_RECORD) (c : CONTEXT b) (w : W)
    (hc : er.ExceptionCode = EXCEPTION_ACCESS_VIOLATION)
    (h8 : er.ExceptionInformation 0 ≠ 8) (hi : is_int80 E w (Xip b c)) :
    Xip b (set_Xip b c ((Xip b c + 2) % 2 ^ b.bits)) = (Xip b c + 2) % 2 ^ b.bits ∧
    (Xip b c + 2 < 2 ^ b.bits →
      Xip b (set_Xip b c ((Xip b c + 2) % 2 ^ b.bits)) = Xip b c + 2) ∧
    set_Xip b (set_Xip b c ((Xip b c + 2) % 2 ^ b.bits)) (Xip b c) = c ∧
    (exception_handler b E G er c w).events =
      .log_info "IP: 0x%p\n" [(Xip b c : Int)] ::
        (dispatch_syscall b E.names (set_Xip b c ((Xip b c + 2) % 2 ^ b.bits)) w).events ∧
    (exception_handler b E G er c w).context =
      (dispatch_syscall b E.names (set_Xip b c ((Xip b c + 2) % 2 ^ b.bits)) w).context ∧
    (exception_handler b E G er c w).world =
      (dispatch_syscall b E.names (set_Xip b c ((Xip b c + 2) % 2 ^ b.bits)) w).world ∧
    ((dispatch_syscall b E.names (set_Xip b c ((Xip b c + 2) % 2 ^ b.bits)) w).outcome =
        .returned () →
      (exception_handler b E G er c w).outcome = .returned EXCEPTION_CONTINUE_EXECUTION) ∧
    (∀ n, (dispatch_syscall b E.names
        (set_Xip b c ((Xip b c + 2) % 2 ^ b.bits)) w).outcome = .exited n →
      (exception_handler b E G er c w).outcome = .exited n) ∧
    (∀ u, (dispatch_syscall b E.names
        (set_Xip b c ((Xip b c + 2) % 2 ^ b.bits)) w).outcome = .undefined u →
      (exception_handler b E G er c w).outcome = .undefined u) := by
  have e := exception_handler_int80 b E G er c w hc h8 hi
  simp only [wrap] at e
  refine ⟨Xip_set_Xip b c _, ?_, set_Xip_Xip b c _, ?_, ?_, ?_, ?_, ?_, ?_⟩
  · intro h; rw [Xip_set_Xip]; exact Nat.mod_eq_of_lt h
  all_goals rw [e]
  · intro h; simp only [h]
  · intro n h; simp only [h]
  · intro u h; simp only [h]

/-- Witness of claim C3: `INT 80h` at `0x1000` with `Eax = 42`, `Ebx = 3`
resumes at `0x1002` with `Eax = 7`. -/
theorem exception_handler_int80_dispatch_witness :
    (exception_handler .win32 (env_of .win32 0x1000 false []) symbols
      (access_violation 0 0xFFFFFFFF) (context32 42 0x1000) ()).outcome =
      .returned EXCEPTION_CONTINUE_EXECUTION ∧
    (exception_handler .win32 (env_of .win32 0x1000 false []) symbols
      (access_violation 0 0xFFFFFFFF) (context32 42 0x1000) ()).context =
      context32 7 0x1002 :=
  ⟨(exception_handler_int80_dispatch .win32 (env_of .win32 0x1000 false []) symbols
      (access_violation 0 0xFFFFFFFF) (context32 42 0x1000) () rfl (by decide)
      (by decide)).2.2.2.2.2.2.1 rfl,
   (exception_handler_int80_dispatch .win32 (env_of .win32 0x1000 false []) symbols
      (access_violation 0 0xFFFFFFFF) (context32 42 0x1000) () rfl (by decide)
      (by decide)).2.2.2.2.1.trans rfl⟩

/-- The guarded-region redirects: for a non-execute access violation that
is not `INT 80h`, that the segment emulator declines and that the memory
manager does not resolve, an instruction pointer inside the read bracket
is redirected to `mm_check_read_fail` (with no assumption on the
brackets); when the three brackets are pairwise disjoint, one inside the
read-string bracket is redirected to `mm_check_read_string_fail` and one
inside the write bracket to `mm_check_write_fail`. Each time one warning
that names the probe is logged, with the low 32 bits of the faulting
address that its `%x` reads, nothing else is written, and the handler
returns `EXCEPTION_CONTINUE_EXECUTION`. The instruction pointer tested is
that of the snapshot as the emulator left it. -/
theorem exception_handler_guarded_redirect {W : Type} (b : Build) (E : Env b W) (G : Symbols)
    (er : EXCEPTION_RECORD) (c : CONTEXT b) (w : W)
    (hc : er.ExceptionCode = EXCEPTION_ACCESS_VIOLATION)
    (h8 : er.ExceptionInformation 0 ≠ 8) (hi : ¬ is_int80 E w (Xip b c))
    (ht : (E.tls_gs_emulation c (Xip b c) w).1 = false)
    (hm : (E.mm_handle_page_fault (er.ExceptionInformation 1)
            (E.tls_gs_emulation c (Xip b c) w).2.2).1 = false) :
    (in_bracket G.mm_check_read_begin G.mm_check_read_end
        (Xip b (E.tls_gs_emulation c (Xip b c) w).2.1) →
      exception_handler b E G er c w =
        { context := set_Xip b (E.tls_gs_emulation c (Xip b c) w).2.1 G.mm_check_read_fail,
          world := (E.mm_handle_page_fault (er.ExceptionInformation 1)
                     (E.tls_gs_emulation c (Xip b c) w).2.2).2,
          events := [.log_info "IP: 0x%p\n" [(Xip b c : Int)],
                     .tls_gs_emulation c (Xip b c),
                     .mm_handle_page_fault (er.ExceptionInformation 1),
                     .log_warning "mm_check_read() failed at location 0x%x\n"
                       [(to_unsigned (er.ExceptionInformation 1) : Int)]],
          outcome := .returned EXCEPTION_CONTINUE_EXECUTION } ∧
      Xip b (exception_handler b E G er c w).context = G.mm_check_read_fail) ∧
    (G.pairwise_disjoint →
      in_bracket G.mm_check_read_string_begin G.mm_check_read_string_end
        (Xip b (E.tls_gs_emulation c (Xip b c) w).2.1) →
      exception_handler b E G er c w =
        { context :=
            set_Xip b (E.tls_gs_emulation c (Xip b c) w).2.1 G.mm_check_read_string_fail,
          world := (E.mm_handle_page_fault (er.ExceptionInformation 1)
                     (E.tls_gs_emulation c (Xip b c) w).2.2).2,
          events := [.log_info "IP: 0x%p\n" [(Xip b c : Int)],
                     .tls_gs_emulation c (Xip b c),
                     .mm_handle_page_fault (er.ExceptionInformation 1),
                     .log_warning "mm_check_read_string() failed at location 0x%x\n"
                       [(to_unsigned (er.ExceptionInformation 1) : Int)]],
          outcome := .returned EXCEPTION_CONTINUE_EXECUTION } ∧
      Xip b (exception_handler b E G er c w).context = G.mm_check_read_string_fail) ∧
    (G.pairwise_disjoint →
      in_bracket G.mm_check_write_begin G.mm_check_write_end
        (Xip b (E.tls_gs_emulation c (Xip b c) w).2.1) →
      exception_handler b E G er c w =
        { context := set_Xip b (E.tls_gs_emulation c (Xip b c) w).2.1 G.mm_check_write_fail,
          world := (E.mm_handle_page_fault (er.ExceptionInformation 1)
                     (E.tls_gs_emulation c (Xip b c) w).2.2).2,
          events := [.log_info "IP: 0x%p\n" [(Xip b c : Int)],
                     .tls_gs_emulation c (Xip b c),
                     .mm_handle_page_fault (er.ExceptionInformation 1),
                     .log_warning "mm_check_write() failed at location 0x%x\n"
                       [(to_unsigned (er.ExceptionInformation 1) : Int)]],
          outcome := .returned EXCEPTION_CONTINUE_EXECUTION } ∧
      Xip b (exception_handler b E G er c w).context = G.mm_check_write_fail) := by
  refine ⟨?_, ?_, ?_⟩
  · intro hr
    have e := exception_handler_read b E G er c w hc h8 hi ht hm hr
    refine ⟨e, ?_⟩
    rw [e]; exact Xip_set_Xip b _ _
  · intro hd hs
    have hr : ¬ in_bracket G.mm_check_read_begin G.mm_check_read_end
        (Xip b (E.tls_gs_emulation c (Xip b c) w).2.1) := by
      have h1 := hd.1
      unfold brackets_disjoint at h1
      unfold in_bracket at hs ⊢
      omega
    have e := exception_handler_read_string b E G er c w hc h8 hi ht hm hr hs
    refine ⟨e, ?_⟩
    rw [e]; exact Xip_set_Xip b _ _
  · intro hd hw
    have hr : ¬ in_bracket G.mm_check_read_begin G.mm_check_read_end
        (Xip b (E.tls_gs_emulation c (Xip b c) w).2.1) := by
      have h1 := hd.2.1
      unfold brackets_disjoint at h1
      unfold in_bracket at hw ⊢
      omega
    have hs : ¬ in_bracket G.mm_check_read_string_begin G.mm_check_read_string_end
        (Xip b (E.tls_gs_emulation c (Xip b c) w).2.1) := by
      have h1 := hd.2.2
      unfold brackets_disjoint at h1
      unfold in_bracket at hw ⊢
      omega
    have e := exception_handler_write b E G er c w hc h8 hi ht hm hr hs hw
    refine ⟨e, ?_⟩
    rw [e]; exact Xip_set_Xip b _ _

/-- Claim C4, which the 64-bit build breaks in its warning: lines 75, 81
and 87 give the faulting address to a `%x` conversion. A read fault at the
address `0x100005000` raised at `0x401008`, inside the read bracket, is
redirected to `mm_check_read_fail` and resumes, as the claim says, but the
warning carries `0x5000`, the low 32 bits, not the faulting address; the
error line of an unrecoverable fault at the same address, which uses `%p`,
carries the address itself. -/
theorem guarded_redirect_warning_low_bits :
    (access_violation 0 0x100005000).ExceptionInformation 1 = 0x100005000 ∧
    exception_handler .win64 (env_of .win64 0x1000 false []) symbols
      (access_violation 0 0x100005000) (context64 0 0x401008) () =
      { context := context64 0 0x401020, world := (),
        events := [.log_info "IP: 0x%p\n" [0x401008],
                   .tls_gs_emulation (context64 0 0x401008) 0x401008,
                   .mm_handle_page_fault 0x100005000,
                   .log_warning "mm_check_read() failed at location 0x%x\n" [0x5000]],
        outcome := .returned EXCEPTION_CONTINUE_EXECUTION } ∧
    (exception_handler .win64 (env_of .win64 0x1000 false []) symbols
      (access_violation 0 0x100005000) (context64 0 0x2000) ()).events.get? 3 =
      some (.log_error "Page fault(read): %p at %p\n" [0x100005000, 0x2000]) := by
  refine ⟨rfl, rfl, rfl⟩

/-- Claim C5 as stated fails: the memory manager resolves the faulting
address `0x5000` of the record, yet (first) a read fault raised on
`INT 80h` at `0x1000` is dispatched as a syscall and resumes at `0x1002`,
not at the instruction pointer of entry, and (second) an execute fault
raised at `0x1000` asks the memory manager about `0x1000` and `0x2000`
only, is not resolved, runs the diagnostic sequence up to `log_shutdown`
and returns `EXCEPTION_CONTINUE_SEARCH`. -/
theorem resolved_address_counterexample :
    ((env_of .win32 0x1000 false [0x5000]).mm_handle_page_fault
        ((access_violation 0 0x5000).ExceptionInformation 1) ()).1 = true ∧
    (exception_handler .win32 (env_of .win32 0x1000 false [0x5000]) symbols
        (access_violation 0 0x5000) (context32 42 0x1000) ()).outcome =
      .returned EXCEPTION_CONTINUE_EXECUTION ∧
    Xip .win32 (context32 42 0x1000) = 0x1000 ∧
    Xip .win32 (exception_handler .win32 (env_of .win32 0x1000 false [0x5000]) symbols
        (access_violation 0 0x5000) (context32 42 0x1000) ()).context = 0x1002 ∧
    ((env_of .win32 0 false [0x5000]).mm_handle_page_fault
        ((access_violation 8 0x5000).ExceptionInformation 1) ()).1 = true ∧
    (exception_handler .win32 (env_of .win32 0 false [0x5000]) symbols
        (access_violation 8 0x5000) (context32 42 0x1000) ()).outcome =
      .returned EXCEPTION_CONTINUE_SEARCH ∧
    (exception_handler .win32 (env_of .win32 0 false [0x5000]) symbols
        (access_violation 8 0x5000) (context32 42 0x1000) ()).events =
      [.mm_handle_page_fault 0x1000, .mm_handle_page_fault 0x2000,
       .log_error "Page fault(DEP): %p at %p\n" [0x5000, 0x1000]] ++
      diagnostics .win32 (context32 42 0x1000) := by
  refine ⟨by decide, by rfl, by rfl, by rfl, by decide, by rfl, by rfl⟩

/-- Claim C5, amended: when the call of `mm_handle_page_fault` that the
handler itself makes returns true, the handler returns
`EXCEPTION_CONTINUE_EXECUTION`, performs no diagnostic action and writes
nothing to the snapshot. For an execute fault (access type 8) the call is
made on the instruction pointer, then on the instruction pointer plus
`0x1000`, and the snapshot left is that of entry. For any other access
violation it is made on the faulting address of the record, after the
`INT 80h` test failed and the segment emulator returned false, and the
snapshot left is the one the emulator left, so the instruction pointer is
that of entry when the emulator did not touch the snapshot. -/
theorem exception_handler_page_fault_resolved {W : Type} (b : Build) (E : Env b W)
    (G : Symbols) (er : EXCEPTION_RECORD) (c : CONTEXT b) (w : W)
    (hc : er.ExceptionCode = EXCEPTION_ACCESS_VIOLATION) :
    (er.ExceptionInformation 0 = 8 →
      ((E.mm_handle_page_fault (Xip b c) w).1 = true ∨
        (E.mm_handle_page_fault (wrap b (Xip b c + 0x1000))
          (E.mm_handle_page_fault (Xip b c) w).2).1 = true) →
      (exception_handler b E G er c w).outcome = .returned EXCEPTION_CONTINUE_EXECUTION ∧
      (exception_handler b E G er c w).context = c ∧
      ∀ e ∈ (exception_handler b E G er c w).events, e.is_diagnostic = false) ∧
    (er.ExceptionInformation 0 ≠ 8 → ¬ is_int80 E w (Xip b c) →
      (E.tls_gs_emulation c (Xip b c) w).1 = false →
      (E.mm_handle_page_fault (er.ExceptionInformation 1)
        (E.tls_gs_emulation c (Xip b c) w).2.2).1 = true →
      (exception_handler b E G er c w).outcome = .returned EXCEPTION_CONTINUE_EXECUTION ∧
      (exception_handler b E G er c w).context = (E.tls_gs_emulation c (Xip b c) w).2.1 ∧
      ((E.tls_gs_emulation c (Xip b c) w).2.1 = c →
        Xip b (exception_handler b E G er c w).context = Xip b c) ∧
      ∀ e ∈ (exception_handler b E G er c w).events, e.is_diagnostic = false) := by
  constructor
  · intro h8 h
    by_cases h1 : (E.mm_handle_page_fault (Xip b c) w).1 = true
    · rw [exception_handler_execute_first b E G er c w hc h8 h1]
      simp [Event.is_diagnostic]
    · have h1f : (E.mm_handle_page_fault (Xip b c) w).1 = false := by
        simpa using h1
      have h2 := h.resolve_left h1
      rw [exception_handler_execute_second b E G er c w hc h8 h1f h2]
      simp [Event.is_diagnostic]
  · intro h8 hi ht hm
    rw [exception_handler_mm b E G er c w hc h8 hi ht hm]
    refine ⟨rfl, rfl, ?_, ?_⟩
    · intro h; simp only [h]
    · simp [Event.is_diagnostic]

/-- Witness of claim C5: a read fault at the mapped address `0x5000`,
raised at `0x2000` where no `INT 80h` stands, resumes at `0x2000`; an
execute fault at `0x1000` whose next page `0x2000` is mapped resumes. -/
theorem exception_handler_page_fault_resolved_witness :
    Xip .win32 (exception_handler .win32 (env_of .win32 0x1000 false [0x5000]) symbols
      (access_violation 0 0x5000) (context32 0 0x2000) ()).context = 0x2000 ∧
    (exception_handler .win32 (env_of .win32 0 false [0x2000]) symbols
      (access_violation 8 0x1000) (context32 0 0x1000) ()).outcome =
      .returned EXCEPTION_CONTINUE_EXECUTION :=
  ⟨((exception_handler_page_fault_resolved .win32 (env_of .win32 0x1000 false [0x5000])
      symbols (access_violation 0 0x5000) (context32 0 0x2000) () rfl).2
      (by decide) (by decide) rfl (by decide)).2.2.1 rfl,
   ((exception_handler_page_fault_resolved .win32 (env_of .win32 0 false [0x2000])
      symbols (access_violation 8 0x1000) (context32 0 0x1000) () rfl).1
      rfl (Or.inr (by decide))).1⟩

/-- Claim C6: for an access violation that no step claims (an execute
fault that the memory manager resolves at neither address; or a
non-execute fault that is not `INT 80h`, that the emulator and the memory
manager decline and whose instruction pointer is in no bracket), the
actions of the handler end with `dump_virtual_memory`, then
`mm_dump_stack_trace` on the snapshot, then the register lines, then
`log_shutdown`, which is last; the handler writes nothing to the snapshot
and returns `EXCEPTION_CONTINUE_SEARCH`, not the resume result, without
ending the process. The register lines are one `log_info` per register
of the build, in the order given, each with the value of the register it
names (the seventh line of the 32-bit build apart, whose value is not
stated here). -/
theorem exception_handler_unclaimed_reports {W : Type} (b : Build) (E : Env b W)
    (G : Symbols) (er : EXCEPTION_RECORD) (c : CONTEXT b) (w : W)
    (hc : er.ExceptionCode = EXCEPTION_ACCESS_VIOLATION) :
    (er.ExceptionInformation 0 = 8 →
      (E.mm_handle_page_fault (Xip b c) w).1 = false →
      (E.mm_handle_page_fault (wrap b (Xip b c + 0x1000))
        (E.mm_handle_page_fault (Xip b c) w).2).1 = false →
      (∃ before, (exception_handler b E G er c w).events =
        before ++ ([.dump_virtual_memory GetCurrentProcess, .mm_dump_stack_trace c] ++
          register_dump b c ++ [.log_shutdown])) ∧
      (exception_handler b E G er c w).context = c ∧
      (exception_handler b E G er c w).outcome = .returned EXCEPTION_CONTINUE_SEARCH ∧
      (exception_handler b E G er c w).outcome ≠ .returned EXCEPTION_CONTINUE_EXECUTION) ∧
    (er.ExceptionInformation 0 ≠ 8 → ¬ is_int80 E w (Xip b c) →
      (E.tls_gs_emulation c (Xip b c) w).1 = false →
      (E.mm_handle_page_fault (er.ExceptionInformation 1)
        (E.tls_gs_emulation c (Xip b c) w).2.2).1 = false →
      ¬ in_bracket G.mm_check_read_begin G.mm_check_read_end
        (Xip b (E.tls_gs_emulation c (Xip b c) w).2.1) →
      ¬ in_bracket G.mm_check_read_string_begin G.mm_check_read_string_end
        (Xip b (E.tls_gs_emulation c (Xip b c) w).2.1) →
      ¬ in_bracket G.mm_check_write_begin G.mm_check_write_end
        (Xip b (E.tls_gs_emulation c (Xip b c) w).2.1) →
      (∃ before, (exception_handler b E G er c w).events =
        before ++ ([.dump_virtual_memory GetCurrentProcess,
            .mm_dump_stack_trace (E.tls_gs_emulation c (Xip b c) w).2.1] ++
          register_dump b (E.tls_gs_emulation c (Xip b c) w).2.1 ++ [.log_shutdown])) ∧
      (exception_handler b E G er c w).context = (E.tls_gs_emulation c (Xip b c) w).2.1 ∧
      (exception_handler b E G er c w).outcome = .returned EXCEPTION_CONTINUE_SEARCH ∧
      (exception_handler b E G er c w).outcome ≠ .returned EXCEPTION_CONTINUE_EXECUTION) ∧
    (∀ c1 : CONTEXT b,
      (register_dump b c1).map Event.log_info_format =
        (match b with
          | .win32 =>
            ["EAX: 0x%p\n", "EBX: 0x%p\n", "ECX: 0x%p\n", "EDX: 0x%p\n", "ESI: 0x%p\n",
             "EDI: 0x%p\n", "EBP: 0x%p\n", "ESP: 0x%p\n"]
          | .win64 =>
            ["RAX: 0x%p\n", "RBX: 0x%p\n", "RCX: 0x%p\n", "RDX: 0x%p\n", "RSI: 0x%p\n",
             "RDI: 0x%p\n", "RBP: 0x%p\n", "RSP: 0x%p\n", "R8:  0x%p\n", "R9:  0x%p\n",
             "R10: 0x%p\n", "R11: 0x%p\n", "R12: 0x%p\n", "R13: 0x%p\n", "R14: 0x%p\n",
             "R15: 0x%p\n"]).map some ∧
      ∀ i, (b = .win32 → i ≠ 6) →
        (register_dump b c1).get? i = (named_register_lines b c1).get? i) := by
  refine ⟨?_, ?_, fun c1 => register_dump_lines b c1⟩
  · intro h8 h1 h2
    rw [exception_handler_execute_none b E G er c w hc h8 h1 h2]
    refine ⟨⟨[.mm_handle_page_fault (Xip b c),
        .mm_handle_page_fault (wrap b (Xip b c + 0x1000))] ++ page_fault_kind b er c ++
        [.log_info "Application crashed, dumping debug information...\n" []], ?_⟩,
      rfl, rfl, returned_search_ne_execution⟩
    simp only [diagnostics_eq, List.append_assoc]
  · intro h8 hi ht hm hr hs hw
    rw [exception_handler_unclaimed b E G er c w hc h8 hi ht hm hr hs hw]
    refine ⟨⟨[.log_info "IP: 0x%p\n" [(Xip b c : Int)], .tls_gs_emulation c (Xip b c),
        .mm_handle_page_fault (er.ExceptionInformation 1)] ++
        page_fault_kind b er (E.tls_gs_emulation c (Xip b c) w).2.1 ++
        [.log_info "Application crashed, dumping debug information...\n" []], ?_⟩,
      rfl, rfl, returned_search_ne_execution⟩
    simp only [diagnostics_eq, List.append_assoc]

/-- Witness of claim C6: a read fault at the unmapped address `0x5000`
raised at `0x2000`, outside every bracket, in the 32-bit build: the run
ends with the virtual-memory dump, the stack trace, the eight register
lines and `log_shutdown`, and is not handled. -/
theorem exception_handler_unclaimed_reports_witness :
    [.dump_virtual_memory GetCurrentProcess, .mm_dump_stack_trace (context32 0 0x2000),
     .log_info "EAX: 0x%p\n" [0], .log_info "EBX: 0x%p\n" [3],
     .log_info "ECX: 0x%p\n" [0], .log_info "EDX: 0x%p\n" [0],
     .log_info "ESI: 0x%p\n" [0], .log_info "EDI: 0x%p\n" [0],
     .log_info "EBP: 0x%p\n" [0], .log_info "ESP: 0x%p\n" [0x7000],
     .log_shutdown] <:+
      (exception_handler .win32 (env_of .win32 0 false []) symbols
        (access_violation 0 0x5000) (context32 0 0x2000) ()).events ∧
    (exception_handler .win32 (env_of .win32 0 false []) symbols
      (access_violation 0 0x5000) (context32 0 0x2000) ()).outcome =
      .returned EXCEPTION_CONTINUE_SEARCH := by
  obtain ⟨⟨before, hb⟩, _, ho, _⟩ :=
    (exception_handler_unclaimed_reports .win32 (env_of .win32 0 false []) symbols
      (access_violation 0 0x5000) (context32 0 0x2000) () rfl).2.1
      (by decide) (by decide) rfl rfl (by decide) (by decide) (by decide)
  exact ⟨⟨before, hb.symm⟩, ho⟩

/-- Claim C8: for an access violation of access type 8 raised at `X`, the
handler calls `mm_handle_page_fault` on `X` and, only when that returns
false, on `X + 0x1000` (in the arithmetic of the register); when either
call returns true it returns `EXCEPTION_CONTINUE_EXECUTION` with the
snapshot of entry and these calls as its only actions; when both return
false it logs the page-fault line, runs the diagnostic sequence and
returns `EXCEPTION_CONTINUE_SEARCH`. On all three paths no call through
the syscall table and no call of the segment emulator is made, and the
result is the same whatever the bytes of memory, the syscall list, the
emulator and the brackets are. -/
theorem exception_handler_execute_fault {W : Type} (b : Build) (E : Env b W) (G : Symbols)
    (er : EXCEPTION_RECORD) (c : CONTEXT b) (w : W)
    (hc : er.ExceptionCode = EXCEPTION_ACCESS_VIOLATION)
    (h8 : er.ExceptionInformation 0 = 8) :
    ((E.mm_handle_page_fault (Xip b c) w).1 = true →
      exception_handler b E G er c w =
        { context := c, world := (E.mm_handle_page_fault (Xip b c) w).2,
          events := [.mm_handle_page_fault (Xip b c)],
          outcome := .returned EXCEPTION_CONTINUE_EXECUTION }) ∧
    ((E.mm_handle_page_fault (Xip b c) w).1 = false →
      (E.mm_handle_page_fault ((Xip b c + 0x1000) % 2 ^ b.bits)
        (E.mm_handle_page_fault (Xip b c) w).2).1 = true →
      exception_handler b E G er c w =
        { context := c,
          world := (E.mm_handle_page_fault ((Xip b c + 0x1000) % 2 ^ b.bits)
                     (E.mm_handle_page_fault (Xip b c) w).2).2,
          events := [.mm_handle_page_fault (Xip b c),
                     .mm_handle_page_fault ((Xip b c + 0x1000) % 2 ^ b.bits)],
          outcome := .returned EXCEPTION_CONTINUE_EXECUTION }) ∧
    ((E.mm_handle_page_fault (Xip b c) w).1 = false →
      (E.mm_handle_page_fault ((Xip b c + 0x1000) % 2 ^ b.bits)
        (E.mm_handle_page_fault (Xip b c) w).2).1 = false →
      exception_handler b E G er c w =
        { context := c,
          world := (E.mm_handle_page_fault ((Xip b c + 0x1000) % 2 ^ b.bits)
                     (E.mm_handle_page_fault (Xip b c) w).2).2,
          events := [.mm_handle_page_fault (Xip b c),
                     .mm_handle_page_fault ((Xip b c + 0x1000) % 2 ^ b.bits),
                     .log_error "Page fault(DEP): %p at %p\n"
                       [(er.ExceptionInformation 1 : Int), (Xip b c : Int)]] ++
            diagnostics b c,
          outcome := .returned EXCEPTION_CONTINUE_SEARCH }) ∧
    (Xip b c + 0x1000 < 2 ^ b.bits → (Xip b c + 0x1000) % 2 ^ b.bits = Xip b c + 0x1000) ∧
    (∀ e ∈ (exception_handler b E G er c w).events,
      e.is_syscall = false ∧ e.is_tls_gs_emulation = false) ∧
    (∀ (E1 : Env b W) (G1 : Symbols),
      E1.mm_handle_page_fault = E.mm_handle_page_fault →
      exception_handler b E1 G1 er c w = exception_handler b E G er c w) := by
  have hk : page_fault_kind b er c = [.log_error "Page fault(DEP): %p at %p\n"
      [(er.ExceptionInformation 1 : Int), (Xip b c : Int)]] := by
    simp [page_fault_kind, h8]
  refine ⟨exception_handler_execute_first b E G er c w hc h8, ?_, ?_,
    fun h => Nat.mod_eq_of_lt h, ?_, ?_⟩
  · intro h1 h2
    exact exception_handler_execute_second b E G er c w hc h8 h1 h2
  · intro h1 h2
    rw [exception_handler_execute_none b E G er c w hc h8 h1 h2, hk]
    rfl
  · intro e he
    simp only [exception_handler, if_pos hc, if_pos h8] at he
    split_ifs at he
    · simp at he; subst he; exact ⟨rfl, rfl⟩
    · simp at he; rcases he with he | he <;> subst he <;> exact ⟨rfl, rfl⟩
    · rw [hk] at he
      simp only [List.mem_append] at he
      rcases he with (he | he) | he
      · simp at he; rcases he with he | he <;> subst he <;> exact ⟨rfl, rfl⟩
      · simp at he; subst he; exact ⟨rfl, rfl⟩
      · have := diagnostics_kinds b c e he
        exact ⟨this.2.1, this.2.2.1⟩
  · intro E1 G1 hE
    simp only [exception_handler, if_pos hc, if_pos h8, hE]

/-- Witness of claim C8: an execute fault at `0x1000` with only the next
page `0x2000` mapped asks for `0x1000`, then `0x2000`, and resumes with
the snapshot as it was. -/
theorem exception_handler_execute_fault_witness :
    exception_handler .win32 (env_of .win32 0x1000 true [0x2000]) symbols
      (access_violation 8 0x1000) (context32 42 0x1000) () =
      { context := context32 42 0x1000, world := (),
        events := [.mm_handle_page_fault 0x1000, .mm_handle_page_fault 0x2000],
        outcome := .returned EXCEPTION_CONTINUE_EXECUTION } :=
  (exception_handler_execute_fault .win32 (env_of .win32 0x1000 true [0x2000]) symbols
    (access_violation 8 0x1000) (context32 42 0x1000) () rfl rfl).2.1
    (by decide) (by decide)

/-- Claim C9: for an exception whose code is not
`EXCEPTION_ACCESS_VIOLATION` the handler emits the diagnostic sequence and
nothing else: the crash line, `dump_virtual_memory`, `mm_dump_stack_trace`
on the snapshot, one `log_info` per register of the build in the order
given (each with the value of the register it names, the seventh line of
the 32-bit build apart, whose value is not stated here), `log_shutdown`.
So there is no call of `mm_handle_page_fault`, of the segment emulator or
through the syscall table; the handler leaves the snapshot and the world
as they were and returns `EXCEPTION_CONTINUE_SEARCH`; and the result is
the same whatever the collaborators, the bytes of memory and the brackets
are. -/
theorem exception_handler_other_exception {W : Type} (b : Build) (E : Env b W) (G : Symbols)
    (er : EXCEPTION_RECORD) (c : CONTEXT b) (w : W)
    (hc : er.ExceptionCode ≠ EXCEPTION_ACCESS_VIOLATION) :
    exception_handler b E G er c w =
      { context := c, world := w,
        events := [.log_info "Application crashed, dumping debug information...\n" [],
                   .dump_virtual_memory GetCurrentProcess,
                   .mm_dump_stack_trace c] ++ register_dump b c ++ [.log_shutdown],
        outcome := .returned EXCEPTION_CONTINUE_SEARCH } ∧
    (register_dump b c).map Event.log_info_format =
      (match b with
        | .win32 =>
          ["EAX: 0x%p\n", "EBX: 0x%p\n", "ECX: 0x%p\n", "EDX: 0x%p\n", "ESI: 0x%p\n",
           "EDI: 0x%p\n", "EBP: 0x%p\n", "ESP: 0x%p\n"]
        | .win64 =>
          ["RAX: 0x%p\n", "RBX: 0x%p\n", "RCX: 0x%p\n", "RDX: 0x%p\n", "RSI: 0x%p\n",
           "RDI: 0x%p\n", "RBP: 0x%p\n", "RSP: 0x%p\n", "R8:  0x%p\n", "R9:  0x%p\n",
           "R10: 0x%p\n", "R11: 0x%p\n", "R12: 0x%p\n", "R13: 0x%p\n", "R14: 0x%p\n",
           "R15: 0x%p\n"]).map some ∧
    (∀ i, (b = .win32 → i ≠ 6) →
      (register_dump b c).get? i = (named_register_lines b c).get? i) ∧
    (∀ e ∈ (exception_handler b E G er c w).events,
      e.is_mm_handle_page_fault = false ∧ e.is_syscall = false ∧
      e.is_tls_gs_emulation = false) ∧
    (∀ (E1 : Env b W) (G1 : Symbols),
      exception_handler b E1 G1 er c w = exception_handler b E G er c w) := by
  refine ⟨exception_handler_other_code b E G er c w hc, (register_dump_lines b c).1,
    (register_dump_lines b c).2, ?_, ?_⟩
  · intro e he
    rw [exception_handler_other_code b E G er c w hc] at he
    have := diagnostics_kinds b c e he
    exact ⟨this.2.2.2, this.2.1, this.2.2.1⟩
  · intro E1 G1
    rw [exception_handler_other_code b E G er c w hc,
      exception_handler_other_code b E1 G1 er c w hc]

/-- Witness of claim C9: a division by zero (`0xC0000094`) raised on
`INT 80h` bytes inside the read bracket, with everything mapped, in the
32-bit build: the run is the twelve actions of the diagnostic sequence,
it is not handled and the snapshot is left alone. -/
theorem exception_handler_other_exception_witness :
    exception_handler .win32 (env_of .win32 0x401008 true [0x401008, 0x402008]) symbols
      { ExceptionCode := 0xC0000094, ExceptionInformation := fun _ => 0 }
      (context32 0 0x401008) () =
      { context := context32 0 0x401008, world := (),
        events :=
          [.log_info "Application crashed, dumping debug information...\n" [],
           .dump_virtual_memory (-1), .mm_dump_stack_trace (context32 0 0x401008),
           .log_info "EAX: 0x%p\n" [0], .log_info "EBX: 0x%p\n" [3],
           .log_info "ECX: 0x%p\n" [0], .log_info "EDX: 0x%p\n" [0],
           .log_info "ESI: 0x%p\n" [0], .log_info "EDI: 0x%p\n" [0],
           .log_info "EBP: 0x%p\n" [0], .log_info "ESP: 0x%p\n" [0x7000],
           .log_shutdown],
        outcome := .returned 0 } :=
  (exception_handler_other_exception .win32
    (env_of .win32 0x401008 true [0x401008, 0x402008]) symbols
    { ExceptionCode := 0xC0000094, ExceptionInformation := fun _ => 0 }
    (context32 0 0x401008) () (by decide)).1.trans rfl

/-- Claim C10: for a non-execute access violation the steps run in the
order `INT 80h` test, segment emulator, memory manager on the faulting
address, brackets, and the first that claims the fault ends the
classification. On `INT 80h` neither the emulator nor the memory manager
is called and the brackets do not matter. Otherwise the emulator is
called; when it returns true the handler returns
`EXCEPTION_CONTINUE_EXECUTION` with the snapshot exactly as the emulator
left it, the memory manager is not called and the brackets do not matter.
When it returns false the memory manager is called on the faulting
address; when that returns true the handler resumes and the brackets do
not matter. Conversely the emulator is called only if the bytes are not
`0xCD 0x80`, the memory manager only if moreover the emulator returned
false, and the brackets can change the result only if moreover the
memory manager returned false. -/
theorem exception_handler_policy_order {W : Type} (b : Build) (E : Env b W) (G : Symbols)
    (er : EXCEPTION_RECORD) (c : CONTEXT b) (w : W)
    (hc : er.ExceptionCode = EXCEPTION_ACCESS_VIOLATION)
    (h8 : er.ExceptionInformation 0 ≠ 8) :
    (is_int80 E w (Xip b c) →
      (∀ e ∈ (exception_handler b E G er c w).events,
        e.is_tls_gs_emulation = false ∧ e.is_mm_handle_page_fault = false) ∧
      ∀ G1 : Symbols, exception_handler b E G1 er c w = exception_handler b E G er c w) ∧
    (¬ is_int80 E w (Xip b c) → (E.tls_gs_emulation c (Xip b c) w).1 = true →
      exception_handler b E G er c w =
        { context := (E.tls_gs_emulation c (Xip b c) w).2.1,
          world := (E.tls_gs_emulation c (Xip b c) w).2.2,
          events := [.log_info "IP: 0x%p\n" [(Xip b c : Int)],
                     .tls_gs_emulation c (Xip b c)],
          outcome := .returned EXCEPTION_CONTINUE_EXECUTION } ∧
      ∀ G1 : Symbols, exception_handler b E G1 er c w = exception_handler b E G er c w) ∧
    (¬ is_int80 E w (Xip b c) → (E.tls_gs_emulation c (Xip b c) w).1 = false →
      (E.mm_handle_page_fault (er.ExceptionInformation 1)
        (E.tls_gs_emulation c (Xip b c) w).2.2).1 = true →
      exception_handler b E G er c w =
        { context := (E.tls_gs_emulation c (Xip b c) w).2.1,
          world := (E.mm_handle_page_fault (er.ExceptionInformation 1)
                     (E.tls_gs_emulation c (Xip b c) w).2.2).2,
          events := [.log_info "IP: 0x%p\n" [(Xip b c : Int)],
                     .tls_gs_emulation c (Xip b c),
                     .mm_handle_page_fault (er.ExceptionInformation 1)],
          outcome := .returned EXCEPTION_CONTINUE_EXECUTION } ∧
      ∀ G1 : Symbols, exception_handler b E G1 er c w = exception_handler b E G er c w) ∧
    (¬ is_int80 E w (Xip b c) → (E.tls_gs_emulation c (Xip b c) w).1 = false →
      (E.mm_handle_page_fault (er.ExceptionInformation 1)
        (E.tls_gs_emulation c (Xip b c) w).2.2).1 = false →
      ∃ rest, (exception_handler b E G er c w).events =
          [.log_info "IP: 0x%p\n" [(Xip b c : Int)],
           .tls_gs_emulation c (Xip b c),
           .mm_handle_page_fault (er.ExceptionInformation 1)] ++ rest ∧
        ∀ e ∈ rest, e.is_syscall = false ∧ e.is_tls_gs_emulation = false ∧
          e.is_mm_handle_page_fault = false) ∧
    ((∃ e ∈ (exception_handler b E G er c w).events, e.is_tls_gs_emulation = true) →
      ¬ is_int80 E w (Xip b c)) ∧
    ((∃ e ∈ (exception_handler b E G er c w).events, e.is_mm_handle_page_fault = true) →
      ¬ is_int80 E w (Xip b c) ∧ (E.tls_gs_emulation c (Xip b c) w).1 = false) ∧
    ((∃ G1 : Symbols, exception_handler b E G1 er c w ≠ exception_handler b E G er c w) →
      ¬ is_int80 E w (Xip b c) ∧ (E.tls_gs_emulation c (Xip b c) w).1 = false ∧
      (E.mm_handle_page_fault (er.ExceptionInformation 1)
        (E.tls_gs_emulation c (Xip b c) w).2.2).1 = false) := by
  have p1 : is_int80 E w (Xip b c) →
      (∀ e ∈ (exception_handler b E G er c w).events,
        e.is_tls_gs_emulation = false ∧ e.is_mm_handle_page_fault = false) ∧
      ∀ G1 : Symbols, exception_handler b E G1 er c w = exception_handler b E G er c w := by
    intro hi
    constructor
    · intro e he
      rw [exception_handler_int80 b E G er c w hc h8 hi] at he
      simp only [List.mem_cons] at he
      rcases he with he | he
      · subst he; exact ⟨rfl, rfl⟩
      · have := dispatch_syscall_events b E.names _ w e he
        exact ⟨this.2.1, this.1⟩
    · intro G1
      rw [exception_handler_int80 b E G er c w hc h8 hi,
        exception_handler_int80 b E G1 er c w hc h8 hi]
  have p2 : ¬ is_int80 E w (Xip b c) → (E.tls_gs_emulation c (Xip b c) w).1 = true →
      exception_handler b E G er c w =
        { context := (E.tls_gs_emulation c (Xip b c) w).2.1,
          world := (E.tls_gs_emulation c (Xip b c) w).2.2,
          events := [.log_info "IP: 0x%p\n" [(Xip b c : Int)],
                     .tls_gs_emulation c (Xip b c)],
          outcome := .returned EXCEPTION_CONTINUE_EXECUTION } ∧
      ∀ G1 : Symbols, exception_handler b E G1 er c w = exception_handler b E G er c w := by
    intro hi ht
    refine ⟨exception_handler_tls b E G er c w hc h8 hi ht, fun G1 => ?_⟩
    rw [exception_handler_tls b E G er c w hc h8 hi ht,
      exception_handler_tls b E G1 er c w hc h8 hi ht]
  have p3 : ¬ is_int80 E w (Xip b c) → (E.tls_gs_emulation c (Xip b c) w).1 = false →
      (E.mm_handle_page_fault (er.ExceptionInformation 1)
        (E.tls_gs_emulation c (Xip b c) w).2.2).1 = true →
      exception_handler b E G er c w =
        { context := (E.tls_gs_emulation c (Xip b c) w).2.1,
          world := (E.mm_handle_page_fault (er.ExceptionInformation 1)
                     (E.tls_gs_emulation c (Xip b c) w).2.2).2,
          events := [.log_info "IP: 0x%p\n" [(Xip b c : Int)],
                     .tls_gs_emulation c (Xip b c),
                     .mm_handle_page_fault (er.ExceptionInformation 1)],
          outcome := .returned EXCEPTION_CONTINUE_EXECUTION } ∧
      ∀ G1 : Symbols, exception_handler b E G1 er c w = exception_handler b E G er c w := by
    intro hi ht hm
    refine ⟨exception_handler_mm b E G er c w hc h8 hi ht hm, fun G1 => ?_⟩
    rw [exception_handler_mm b E G er c w hc h8 hi ht hm,
      exception_handler_mm b E G1 er c w hc h8 hi ht hm]
  refine ⟨p1, p2, p3, ?_, ?_, ?_, ?_⟩
  · intro hi ht hm
    by_cases hr : in_bracket G.mm_check_read_begin G.mm_check_read_end
        (Xip b (E.tls_gs_emulation c (Xip b c) w).2.1)
    · rw [exception_handler_read b E G er c w hc h8 hi ht hm hr]
      exact ⟨[.log_warning "mm_check_read() failed at location 0x%x\n"
        [(to_unsigned (er.ExceptionInformation 1) : Int)]], rfl, by simp [Event.is_syscall,
          Event.is_tls_gs_emulation, Event.is_mm_handle_page_fault]⟩
    by_cases hs : in_bracket G.mm_check_read_string_begin G.mm_check_read_string_end
        (Xip b (E.tls_gs_emulation c (Xip b c) w).2.1)
    · rw [exception_handler_read_string b E G er c w hc h8 hi ht hm hr hs]
      exact ⟨[.log_warning "mm_check_read_string() failed at location 0x%x\n"
        [(to_unsigned (er.ExceptionInformation 1) : Int)]], rfl, by simp [Event.is_syscall,
          Event.is_tls_gs_emulation, Event.is_mm_handle_page_fault]⟩
    by_cases hw : in_bracket G.mm_check_write_begin G.mm_check_write_end
        (Xip b (E.tls_gs_emulation c (Xip b c) w).2.1)
    · rw [exception_handler_write b E G er c w hc h8 hi ht hm hr hs hw]
      exact ⟨[.log_warning "mm_check_write() failed at location 0x%x\n"
        [(to_unsigned (er.ExceptionInformation 1) : Int)]], rfl, by simp [Event.is_syscall,
          Event.is_tls_gs_emulation, Event.is_mm_handle_page_fault]⟩
    · rw [exception_handler_unclaimed b E G er c w hc h8 hi ht hm hr hs hw]
      refine ⟨page_fault_kind b er (E.tls_gs_emulation c (Xip b c) w).2.1 ++
        diagnostics b (E.tls_gs_emulation c (Xip b c) w).2.1, ?_, ?_⟩
      · simp only [List.append_assoc]
      · intro e he
        rcases List.mem_append.1 he with he | he
        · exact page_fault_kind_kinds b er _ e he
        · have := diagnostics_kinds b _ e he
          exact ⟨this.2.1, this.2.2.1, this.2.2.2⟩
  · rintro ⟨e, he, hk⟩ hi
    have := ((p1 hi).1 e he).1
    rw [this] at hk
    cases hk
  · rintro ⟨e, he, hk⟩
    have hi : ¬ is_int80 E w (Xip b c) := by
      intro hi
      have := ((p1 hi).1 e he).2
      rw [this] at hk
      cases hk
    refine ⟨hi, ?_⟩
    by_contra ht
    have ht : (E.tls_gs_emulation c (Xip b c) w).1 = true := by simpa using ht
    rw [(p2 hi ht).1] at he
    simp at he
    rcases he with he | he <;> subst he <;> cases hk
  · rintro ⟨G1, hG⟩
    have hi : ¬ is_int80 E w (Xip b c) := fun hi => hG ((p1 hi).2 G1)
    have ht : (E.tls_gs_emulation c (Xip b c) w).1 = false := by
      by_contra ht
      have ht : (E.tls_gs_emulation c (Xip b c) w).1 = true := by simpa using ht
      exact hG ((p2 hi ht).2 G1)
    refine ⟨hi, ht, ?_⟩
    by_contra hm
    have hm : (E.mm_handle_page_fault (er.ExceptionInformation 1)
        (E.tls_gs_emulation c (Xip b c) w).2.2).1 = true := by simpa using hm
    exact hG ((p3 hi ht hm).2 G1)

/-- Witness of claim C10: a read fault raised at `0x401008`, inside the
read bracket and with no `INT 80h` there, on which the emulator returns
true: the handler resumes after the call of the emulator alone. -/
theorem exception_handler_policy_order_witness :
    exception_handler .win32 (env_of .win32 0x1000 true [0x5000]) symbols
      (access_violation 0 0x5000) (context32 42 0x401008) () =
      { context := context32 42 0x401008, world := (),
        events := [.log_info "IP: 0x%p\n" [0x401008],
                   .tls_gs_emulation (context32 42 0x401008) 0x401008],
        outcome := .returned EXCEPTION_CONTINUE_EXECUTION } :=
  ((exception_handler_policy_order .win32 (env_of .win32 0x1000 true [0x5000]) symbols
    (access_violation 0 0x5000) (context32 42 0x401008) () rfl (by decide)).2.1
    (by decide) rfl).1

/-! ## Facts used by the claims on the whole run -/

/-- The page-fault line is neither a diagnostic action nor `log_shutdown`. -/
theorem page_fault_kind_not_diagnostic (b : Build) (er : EXCEPTION_RECORD) (c : CONTEXT b) :
    ∀ e ∈ page_fault_kind b er c,
      e.is_diagnostic = false ∧ e.is_log_shutdown = false ∧ e.is_log_error = true := by
  unfold page_fault_kind
  split_ifs <;> simp [Event.is_diagnostic, Event.is_log_shutdown, Event.is_log_error]

/-- The diagnostic sequence calls `log_shutdown` once, as its last action,
and logs no error line. -/
theorem diagnostics_log_shutdown (b : Build) (c : CONTEXT b) :
    (diagnostics b c).getLast? = some .log_shutdown ∧
    ((diagnostics b c).filter Event.is_log_shutdown).length = 1 ∧
    ∀ e ∈ diagnostics b c, e.is_log_error = false := by
  cases b <;>
    simp [diagnostics, register_dump, Event.is_log_shutdown, Event.is_log_error,
      List.filter]

/-- An action that is not a diagnostic action is not `log_shutdown`. -/
theorem not_log_shutdown_of_not_diagnostic {b : Build} (e : Event b)
    (h : e.is_diagnostic = false) : e.is_log_shutdown = false := by
  cases e <;> simp_all [Event.is_diagnostic, Event.is_log_shutdown]

/-- Every run of the handler is of one of two kinds: no step claims the
exception, the actions end with the diagnostic sequence on the snapshot
left, with no diagnostic action before it, and the handler returns
`EXCEPTION_CONTINUE_SEARCH`; or a step claims it, no diagnostic action is
emitted, and the handler can only return `EXCEPTION_CONTINUE_EXECUTION`. -/
theorem exception_handler_classify {W : Type} (b : Build) (E : Env b W) (G : Symbols)
    (er : EXCEPTION_RECORD) (c : CONTEXT b) (w : W) :
    (unclaimed E G er c w ∧
      (exception_handler b E G er c w).outcome = .returned EXCEPTION_CONTINUE_SEARCH ∧
      ∃ before, (exception_handler b E G er c w).events =
          before ++ diagnostics b (exception_handler b E G er c w).context ∧
        ∀ e ∈ before, e.is_diagnostic = false) ∨
    (¬ unclaimed E G er c w ∧
      (∀ v, (exception_handler b E G er c w).outcome = .returned v →
        v = EXCEPTION_CONTINUE_EXECUTION) ∧
      ∀ e ∈ (exception_handler b E G er c w).events, e.is_diagnostic = false) := by
  by_cases hc : er.ExceptionCode = EXCEPTION_ACCESS_VIOLATION
  swap
  · left
    rw [exception_handler_other_code b E G er c w hc]
    exact ⟨Or.inl hc, rfl, [], rfl, by simp⟩
  by_cases h8 : er.ExceptionInformation 0 = 8
  · by_cases h1 : (E.mm_handle_page_fault (Xip b c) w).1 = true
    · right
      rw [exception_handler_execute_first b E G er c w hc h8 h1]
      refine ⟨?_, ?_, ?_⟩
      · simp [unclaimed, hc, h8, h1]
      · intro v hv; cases hv; rfl
      · simp [Event.is_diagnostic]
    have h1f : (E.mm_handle_page_fault (Xip b c) w).1 = false := by simpa using h1
    by_cases h2 : (E.mm_handle_page_fault (wrap b (Xip b c + 0x1000))
        (E.mm_handle_page_fault (Xip b c) w).2).1 = true
    · right
      rw [exception_handler_execute_second b E G er c w hc h8 h1f h2]
      refine ⟨?_, ?_, ?_⟩
      · simp [unclaimed, hc, h8, h1f, h2]
      · intro v hv; cases hv; rfl
      · simp [Event.is_diagnostic]
    have h2f : (E.mm_handle_page_fault (wrap b (Xip b c + 0x1000))
        (E.mm_handle_page_fault (Xip b c) w).2).1 = false := by simpa using h2
    left
    rw [exception_handler_execute_none b E G er c w hc h8 h1f h2f]
    refine ⟨Or.inr (Or.inl ⟨hc, h8, h1f, h2f⟩), rfl, _, rfl, ?_⟩
    intro e he
    rcases List.mem_append.1 he with he | he
    · simp at he; rcases he with he | he <;> subst he <;> rfl
    · exact (page_fault_kind_not_diagnostic b er c e he).1
  by_cases hi : is_int80 E w (Xip b c)
  · right
    rw [exception_handler_int80 b E G er c w hc h8 hi]
    refine ⟨?_, ?_, ?_⟩
    · simp [unclaimed, hc, h8, hi]
    · intro v hv
      simp only at hv
      split at hv
      · cases hv; rfl
      · cases hv
      · cases hv
    · intro e he
      simp only [List.mem_cons] at he
      rcases he with he | he
      · subst he; simp [Event.is_diagnostic]
      · exact (dispatch_syscall_events b E.names _ w e he).2.2
  by_cases ht : (E.tls_gs_emulation c (Xip b c) w).1 = true
  · right
    rw [exception_handler_tls b E G er c w hc h8 hi ht]
    refine ⟨?_, ?_, ?_⟩
    · simp [unclaimed, hc, h8, ht]
    · intro v hv; cases hv; rfl
    · simp [Event.is_diagnostic]
  have htf : (E.tls_gs_emulation c (Xip b c) w).1 = false := by simpa using ht
  by_cases hm : (E.mm_handle_page_fault (er.ExceptionInformation 1)
      (E.tls_gs_emulation c (Xip b c) w).2.2).1 = true
  · right
    rw [exception_handler_mm b E G er c w hc h8 hi htf hm]
    refine ⟨?_, ?_, ?_⟩
    · simp [unclaimed, hc, h8, hm]
    · intro v hv; cases hv; rfl
    · simp [Event.is_diagnostic]
  have hmf : (E.mm_handle_page_fault (er.ExceptionInformation 1)
      (E.tls_gs_emulation c (Xip b c) w).2.2).1 = false := by simpa using hm
  by_cases hr : in_bracket G.mm_check_read_begin G.mm_check_read_end
      (Xip b (E.tls_gs_emulation c (Xip b c) w).2.1)
  · right
    rw [exception_handler_read b E G er c w hc h8 hi htf hmf hr]
    refine ⟨?_, ?_, ?_⟩
    · simp [unclaimed, hc, h8, hr]
    · intro v hv; cases hv; rfl
    · simp [Event.is_diagnostic]
  by_cases hs : in_bracket G.mm_check_read_string_begin G.mm_check_read_string_end
      (Xip b (E.tls_gs_emulation c (Xip b c) w).2.1)
  · right
    rw [exception_handler_read_string b E G er c w hc h8 hi htf hmf hr hs]
    refine ⟨?_, ?_, ?_⟩
    · simp [unclaimed, hc, h8, hs]
    · intro v hv; cases hv; rfl
    · simp [Event.is_diagnostic]
  by_cases hw : in_bracket G.mm_check_write_begin G.mm_check_write_end
      (Xip b (E.tls_gs_emulation c (Xip b c) w).2.1)
  · right
    rw [exception_handler_write b E G er c w hc h8 hi htf hmf hr hs hw]
    refine ⟨?_, ?_, ?_⟩
    · simp [unclaimed, hc, h8, hw]
    · intro v hv; cases hv; rfl
    · simp [Event.is_diagnostic]
  left
  rw [exception_handler_unclaimed b E G er c w hc h8 hi htf hmf hr hs hw]
  refine ⟨Or.inr (Or.inr ⟨hc, h8, hi, htf, hmf, hr, hs, hw⟩), rfl, _, rfl, ?_⟩
  intro e he
  rcases List.mem_append.1 he with he | he
  · simp at he; rcases he with he | he | he <;> subst he <;> simp [Event.is_diagnostic]
  · exact (page_fault_kind_not_diagnostic b er _ e he).1

/-! ## The run as a whole -/

/-- Claim C11: a run of the handler that returns returns one of two
distinct values, `EXCEPTION_CONTINUE_SEARCH` or
`EXCEPTION_CONTINUE_EXECUTION`. It returns `EXCEPTION_CONTINUE_SEARCH` if
and only if no step claims the exception (`unclaimed`: the code is not an
access violation; or an execute fault not resolved at the instruction
pointer nor `0x1000` further; or another access violation, not on
`INT 80h`, declined by the emulator and the memory manager, with the
instruction pointer in none of the three brackets), and then the
diagnostic sequence has run, as the last actions of the run: the crash
line, `dump_virtual_memory`, `mm_dump_stack_trace` on the snapshot, one
`log_info` per register of the build in the order given (each with the
value of the register it names, the seventh line of the 32-bit build
apart, whose value is not stated here), `log_shutdown`. When it returns
`EXCEPTION_CONTINUE_EXECUTION` it has emitted no diagnostic action. -/
theorem exception_handler_outcome {W : Type} (b : Build) (E : Env b W) (G : Symbols)
    (er : EXCEPTION_RECORD) (c : CONTEXT b) (w : W) :
    (∀ v, (exception_handler b E G er c w).outcome = .returned v →
      v = EXCEPTION_CONTINUE_SEARCH ∨ v = EXCEPTION_CONTINUE_EXECUTION) ∧
    EXCEPTION_CONTINUE_SEARCH ≠ EXCEPTION_CONTINUE_EXECUTION ∧
    ((exception_handler b E G er c w).outcome = .returned EXCEPTION_CONTINUE_SEARCH ↔
      unclaimed E G er c w) ∧
    ((exception_handler b E G er c w).outcome = .returned EXCEPTION_CONTINUE_SEARCH →
      ∃ before, (exception_handler b E G er c w).events =
          before ++
            ([.log_info "Application crashed, dumping debug information...\n" [],
              .dump_virtual_memory GetCurrentProcess,
              .mm_dump_stack_trace (exception_handler b E G er c w).context] ++
             register_dump b (exception_handler b E G er c w).context ++ [.log_shutdown]) ∧
        ∀ e ∈ before, e.is_diagnostic = false) ∧
    ((exception_handler b E G er c w).outcome = .returned EXCEPTION_CONTINUE_EXECUTION →
      ¬ unclaimed E G er c w ∧
      ∀ e ∈ (exception_handler b E G er c w).events, e.is_diagnostic = false) ∧
    (∀ c1 : CONTEXT b,
      (register_dump b c1).map Event.log_info_format =
        (match b with
          | .win32 =>
            ["EAX: 0x%p\n", "EBX: 0x%p\n", "ECX: 0x%p\n", "EDX: 0x%p\n", "ESI: 0x%p\n",
             "EDI: 0x%p\n", "EBP: 0x%p\n", "ESP: 0x%p\n"]
          | .win64 =>
            ["RAX: 0x%p\n", "RBX: 0x%p\n", "RCX: 0x%p\n", "RDX: 0x%p\n", "RSI: 0x%p\n",
             "RDI: 0x%p\n", "RBP: 0x%p\n", "RSP: 0x%p\n", "R8:  0x%p\n", "R9:  0x%p\n",
             "R10: 0x%p\n", "R11: 0x%p\n", "R12: 0x%p\n", "R13: 0x%p\n", "R14: 0x%p\n",
             "R15: 0x%p\n"]).map some ∧
      ∀ i, (b = .win32 → i ≠ 6) →
        (register_dump b c1).get? i = (named_register_lines b c1).get? i) := by
  have hne : EXCEPTION_CONTINUE_SEARCH ≠ EXCEPTION_CONTINUE_EXECUTION := by decide
  refine ⟨?_, hne, ?_, ?_, ?_, fun c1 => register_dump_lines b c1⟩
  all_goals rcases exception_handler_classify b E G er c w with ⟨hu, ho, hd⟩ | ⟨hu, ho, hd⟩
  · intro v hv
    rw [ho] at hv
    cases hv
    exact Or.inl rfl
  · exact fun v hv => Or.inr (ho v hv)
  · exact ⟨fun _ => hu, fun _ => ho⟩
  · exact ⟨fun hv => absurd (ho _ hv) hne, fun h => absurd h hu⟩
  · exact fun _ => hd
  · exact fun hv => absurd (ho _ hv) hne
  · intro hv
    rw [ho] at hv
    cases hv
  · exact fun _ => ⟨hu, hd⟩

/-- Witness of claim C11: a read fault at the unmapped address `0x5000`
raised at `0x2000`, outside every bracket, in the 32-bit build, is
unclaimed and returns `EXCEPTION_CONTINUE_SEARCH`, and its run ends with
the twelve actions of the diagnostic sequence; the same fault raised
inside the write bracket returns `EXCEPTION_CONTINUE_EXECUTION` and is not
unclaimed. -/
theorem exception_handler_outcome_witness :
    (exception_handler .win32 (env_of .win32 0 false []) symbols
      (access_violation 0 0x5000) (context32 0 0x2000) ()).outcome =
      .returned EXCEPTION_CONTINUE_SEARCH ∧
    [.log_info "Application crashed, dumping debug information...\n" [],
     .dump_virtual_memory GetCurrentProcess, .mm_dump_stack_trace (context32 0 0x2000),
     .log_info "EAX: 0x%p\n" [0], .log_info "EBX: 0x%p\n" [3],
     .log_info "ECX: 0x%p\n" [0], .log_info "EDX: 0x%p\n" [0],
     .log_info "ESI: 0x%p\n" [0], .log_info "EDI: 0x%p\n" [0],
     .log_info "EBP: 0x%p\n" [0], .log_info "ESP: 0x%p\n" [0x7000],
     .log_shutdown] <:+
      (exception_handler .win32 (env_of .win32 0 false []) symbols
        (access_violation 0 0x5000) (context32 0 0x2000) ()).events ∧
    ¬ unclaimed (env_of .win32 0 false []) symbols
      (access_violation 0 0x5000) (context32 0 0x403008) () := by
  have ho := (exception_handler_outcome .win32 (env_of .win32 0 false []) symbols
    (access_violation 0 0x5000) (context32 0 0x2000) ()).2.2.1.2 (by decide)
  obtain ⟨before, hb, _⟩ := (exception_handler_outcome .win32 (env_of .win32 0 false [])
    symbols (access_violation 0 0x5000) (context32 0 0x2000) ()).2.2.2.1 ho
  exact ⟨ho, ⟨before, hb.symm⟩,
    ((exception_handler_outcome .win32 (env_of .win32 0 false []) symbols
      (access_violation 0 0x5000) (context32 0 0x403008) ()).2.2.2.2.1 rfl).1⟩

/-- Claim C17: `log_shutdown` is among the actions of a run if and only
if the handler returns `EXCEPTION_CONTINUE_SEARCH`; then it is the last
action and is called exactly once; and when the handler returns
`EXCEPTION_CONTINUE_EXECUTION` no action of the run is `log_shutdown`,
`dump_virtual_memory`, `mm_dump_stack_trace` or a line of the register
dump. -/
theorem log_shutdown_iff_not_handled {W : Type} (b : Build) (E : Env b W) (G : Symbols)
    (er : EXCEPTION_RECORD) (c : CONTEXT b) (w : W) :
    ((∃ e ∈ (exception_handler b E G er c w).events, e.is_log_shutdown = true) ↔
      (exception_handler b E G er c w).outcome = .returned EXCEPTION_CONTINUE_SEARCH) ∧
    ((exception_handler b E G er c w).outcome = .returned EXCEPTION_CONTINUE_EXECUTION →
      ∀ e ∈ (exception_handler b E G er c w).events,
        e.is_diagnostic = false ∧ e.is_log_shutdown = false) ∧
    ((exception_handler b E G er c w).outcome = .returned EXCEPTION_CONTINUE_SEARCH →
      (exception_handler b E G er c w).events.getLast? = some .log_shutdown ∧
      ((exception_handler b E G er c w).events.filter Event.is_log_shutdown).length = 1) := by
  have hne : EXCEPTION_CONTINUE_SEARCH ≠ EXCEPTION_CONTINUE_EXECUTION := by decide
  rcases exception_handler_classify b E G er c w with
    ⟨_, ho, before, he, hb⟩ | ⟨_, ho, hd⟩
  · have hl := diagnostics_log_shutdown b (exception_handler b E G er c w).context
    have hmem : Event.log_shutdown ∈ diagnostics b (exception_handler b E G er c w).context :=
      List.mem_of_getLast?_eq_some hl.1
    refine ⟨⟨fun _ => ho, fun _ => ⟨.log_shutdown, ?_, rfl⟩⟩, ?_, fun _ => ⟨?_, ?_⟩⟩
    · rw [he]; exact List.mem_append_right _ hmem
    · intro hv
      rw [ho] at hv
      cases hv
    · rw [he, List.getLast?_append, hl.1]; rfl
    · rw [he, List.filter_append, List.length_append, hl.2.1]
      have : before.filter Event.is_log_shutdown = [] := by
        rw [List.filter_eq_nil_iff]
        intro e hmem
        rw [not_log_shutdown_of_not_diagnostic e (hb e hmem)]
        exact Bool.false_ne_true
      rw [this]; rfl
  · have hns : (exception_handler b E G er c w).outcome ≠
        .returned EXCEPTION_CONTINUE_SEARCH := fun hv => hne (ho _ hv)
    refine ⟨⟨?_, fun hv => absurd hv hns⟩, ?_, fun hv => absurd hv hns⟩
    · rintro ⟨e, hmem, hs⟩
      rw [not_log_shutdown_of_not_diagnostic e (hd e hmem)] at hs
      cases hs
    · intro _ e hmem
      exact ⟨hd e hmem, not_log_shutdown_of_not_diagnostic e (hd e hmem)⟩

/-- Witness of claim C17: a read fault at the unmapped address `0x5000`
raised at `0x2000`, outside every bracket, is not handled; `log_shutdown`
is the last action and is called once. -/
theorem log_shutdown_iff_not_handled_witness :
    (exception_handler .win32 (env_of .win32 0 false []) symbols
      (access_violation 0 0x5000) (context32 0 0x2000) ()).events.getLast? =
      some .log_shutdown ∧
    ((exception_handler .win32 (env_of .win32 0 false []) symbols
      (access_violation 0 0x5000) (context32 0 0x2000) ()).events.filter
        Event.is_log_shutdown).length = 1 :=
  (log_shutdown_iff_not_handled .win32 (env_of .win32 0 false []) symbols
    (access_violation 0 0x5000) (context32 0 0x2000) ()).2.2 rfl

/-! ## The register dump and the table -/

/-- Claim C12, which the 32-bit build breaks: line 125 logs `Eax` under
the label `EBP`. For a 32-bit snapshot with `Eax = 42` and `Ebp = 0` the
seventh register line is `EBP:` with the value 42, where the register
`Ebp` holds 0, so the dump is not the dump of the named registers; in an
unrecoverable run of the handler this is the tenth action. The 64-bit
build logs every register under its own name. -/
theorem register_dump_ebp_line :
    (context32 42 0x1000).Eax = 42 ∧ (context32 42 0x1000).Ebp = 0 ∧
    (register_dump .win32 (context32 42 0x1000)).get? 6 =
      some (.log_info "EBP: 0x%p\n" [42]) ∧
    (named_register_lines .win32 (context32 42 0x1000)).get? 6 =
      some (.log_info "EBP: 0x%p\n" [0]) ∧
    register_dump .win32 (context32 42 0x1000) ≠
      named_register_lines .win32 (context32 42 0x1000) ∧
    (exception_handler .win32 (env_of .win32 0 false []) symbols
      (access_violation 0 0x5000) (context32 42 0x2000) ()).outcome =
      .returned EXCEPTION_CONTINUE_SEARCH ∧
    (exception_handler .win32 (env_of .win32 0 false []) symbols
      (access_violation 0 0x5000) (context32 42 0x2000) ()).events.get? 13 =
      some (.log_info "EBP: 0x%p\n" [42]) ∧
    (∀ c : CONTEXT64, register_dump .win64 c = named_register_lines .win64 c) := by
  refine ⟨rfl, rfl, rfl, rfl, ?_, rfl, rfl, fun c => rfl⟩
  intro h
  have := congrArg (fun l => l.get? 6) h
  simp [register_dump, named_register_lines, registers, context32] at this

/-- Claim C13 as stated fails: with a syscall list of 42 entries, slot 43
of the table is a null pointer, not `sys_unimplemented`, and dispatching
the number 43 calls that null pointer: the fallback does not run and the
process does not exit with status 1. -/
theorem syscall_table_unfilled_counterexample :
    (names42 .win32).length = 42 ∧
    (syscall_table (names42 .win32)).get? 43 = some none ∧
    (syscall_table (names42 .win32)).get? 43 ≠ some (some .sys_unimplemented) ∧
    dispatch_syscall .win32 (names42 .win32) (context32 43 0x1000) () =
      { context := context32 43 0x1000, world := (),
        events := [.syscall 43 3 0 0 0 0 0 (context32 43 0x1000)],
        outcome := .undefined (.null_call 43) } := by
  refine ⟨rfl, rfl, ?_, rfl⟩
  intro h
  have h1 : (syscall_table (names42 .win32)).get? 43 = some none := rfl
  rw [h1] at h
  cases h

/-- Claim C13, amended: the table has 338 slots; slot 0 holds
`sys_unimplemented`; slot `i + 1` holds entry `i` of the syscall list; a
slot past the list holds no handler (a null pointer), so every slot holds
a handler only when the list has 337 entries; and dispatching a number
whose slot holds `sys_unimplemented` (slot 0, or a slot where the list
names it) runs the fallback: the error line, `ExitProcess(1)`, exit with
status 1. -/
theorem syscall_table_contents {W : Type} (b : Build) (names : List (Handler b W))
    (hk : names.length ≤ 337) :
    (syscall_table names).length = 338 ∧
    (syscall_table names).get? 0 = some (some .sys_unimplemented) ∧
    (∀ i, i < names.length → (syscall_table names).get? (i + 1) = (names.get? i).map some) ∧
    (∀ i, names.length < i → i < 338 → (syscall_table names).get? i = some none) ∧
    (∀ (c : CONTEXT b) (w : W),
      (syscall_table names).get? (accumulator b c) = some (some .sys_unimplemented) →
      (dispatch_syscall b names c w).outcome = .exited 1 ∧
      (dispatch_syscall b names c w).context = c ∧
      ∃ a1 a2 a3 a4 a5 a6 : Int, (dispatch_syscall b names c w).events =
        [.syscall (accumulator b c) a1 a2 a3 a4 a5 a6 c,
         .log_error "FATAL: Unimplemented syscall: %d\n" [to_int (accumulator b c)],
         .ExitProcess 1]) := by
  refine ⟨syscall_table_length names, syscall_table_get?_zero names, ?_, ?_, ?_⟩
  · intro i hi
    have h1 : i + 1 < (Handler.sys_unimplemented :: names).length := by simp; omega
    simp only [syscall_table, SYSCALL_COUNT, List.get?_eq_getElem?]
    rw [List.getElem?_take_of_lt (by omega)]
    rw [List.getElem?_append_left (by simpa using h1)]
    simp
  · intro i h1 h2
    simp only [syscall_table, SYSCALL_COUNT, List.get?_eq_getElem?]
    rw [List.getElem?_take_of_lt (by omega)]
    rw [List.getElem?_append_right (by simp; omega)]
    rw [List.getElem?_replicate, if_pos (by simp; omega)]
  · intro c w hs
    cases b
    · simp only [accumulator] at hs ⊢
      simp only [dispatch_syscall, call_syscall_table, hs, sys_unimplemented]
      exact ⟨trivial, trivial, _, _, _, _, _, _, rfl⟩
    · simp only [accumulator] at hs ⊢
      simp only [dispatch_syscall, call_syscall_table, hs, sys_unimplemented]
      exact ⟨trivial, trivial, _, _, _, _, _, _, rfl⟩

/-- Witness of claim C13: in the table of the 42-entry list, slot 42
holds the handler of the list, slot 7 holds `sys_unimplemented`, and
dispatching 7 exits with status 1. -/
theorem syscall_table_contents_witness :
    (syscall_table (names42 .win32)).get? 42 = some (some (.handler seven_on_three)) ∧
    (dispatch_syscall .win32 (names42 .win32) (context32 7 0x1000) ()).outcome = .exited 1 :=
  ⟨((syscall_table_contents .win32 (names42 .win32) (by decide)).2.2.1 41
      (by decide)).trans rfl,
   ((syscall_table_contents .win32 (names42 .win32) (by decide)).2.2.2.2
      (context32 7 0x1000) () rfl).1⟩

/-! ## The page-fault line, the frame, the conversions -/

/-- Claim C14: for an access violation that no step claims, of access
type 0, 1 or 8, the actions of the handler are the calls of the
classification, then one error line that names the kind (`read` for 0,
`write` for 1, `DEP` for 8) and carries the faulting address and the
instruction pointer of the snapshot, then the diagnostic sequence (the
crash line, `dump_virtual_memory`, `mm_dump_stack_trace`, the register
lines, `log_shutdown`); that line is the only error line of the run. -/
theorem page_fault_line {W : Type} (b : Build) (E : Env b W) (G : Symbols)
    (er : EXCEPTION_RECORD) (c : CONTEXT b) (w : W)
    (hc : er.ExceptionCode = EXCEPTION_ACCESS_VIOLATION)
    (hu : unclaimed E G er c w)
    (hk : er.ExceptionInformation 0 = 0 ∨ er.ExceptionInformation 0 = 1 ∨
      er.ExceptionInformation 0 = 8) :
    (er.ExceptionInformation 0 = 8 →
      (exception_handler b E G er c w).events =
        [.mm_handle_page_fault (Xip b c),
         .mm_handle_page_fault ((Xip b c + 0x1000) % 2 ^ b.bits)] ++
        [.log_error "Page fault(DEP): %p at %p\n"
          [(er.ExceptionInformation 1 : Int), (Xip b c : Int)]] ++
        ([.log_info "Application crashed, dumping debug information...\n" [],
          .dump_virtual_memory GetCurrentProcess, .mm_dump_stack_trace c] ++
         register_dump b c ++ [.log_shutdown])) ∧
    (er.ExceptionInformation 0 = 0 →
      (exception_handler b E G er c w).events =
        [.log_info "IP: 0x%p\n" [(Xip b c : Int)], .tls_gs_emulation c (Xip b c),
         .mm_handle_page_fault (er.ExceptionInformation 1)] ++
        [.log_error "Page fault(read): %p at %p\n"
          [(er.ExceptionInformation 1 : Int),
           (Xip b (exception_handler b E G er c w).context : Int)]] ++
        ([.log_info "Application crashed, dumping debug information...\n" [],
          .dump_virtual_memory GetCurrentProcess,
          .mm_dump_stack_trace (exception_handler b E G er c w).context] ++
         register_dump b (exception_handler b E G er c w).context ++ [.log_shutdown])) ∧
    (er.ExceptionInformation 0 = 1 →
      (exception_handler b E G er c w).events =
        [.log_info "IP: 0x%p\n" [(Xip b c : Int)], .tls_gs_emulation c (Xip b c),
         .mm_handle_page_fault (er.ExceptionInformation 1)] ++
        [.log_error "Page fault(write): %p at %p\n"
          [(er.ExceptionInformation 1 : Int),
           (Xip b (exception_handler b E G er c w).context : Int)]] ++
        ([.log_info "Application crashed, dumping debug information...\n" [],
          .dump_virtual_memory GetCurrentProcess,
          .mm_dump_stack_trace (exception_handler b E G er c w).context] ++
         register_dump b (exception_handler b E G er c w).context ++ [.log_shutdown])) ∧
    ((exception_handler b E G er c w).events.filter Event.is_log_error).length = 1 := by
  have hd : ∀ c1 : CONTEXT b, (diagnostics b c1).filter Event.is_log_error = [] := by
    intro c1
    rw [List.filter_eq_nil_iff]
    intro e he
    rw [(diagnostics_log_shutdown b c1).2.2 e he]
    exact Bool.false_ne_true
  have hx : ∀ c1 : CONTEXT b,
      ([.log_info "Application crashed, dumping debug information...\n" [],
        .dump_virtual_memory GetCurrentProcess, .mm_dump_stack_trace c1] ++
       register_dump b c1 ++ [.log_shutdown] : List (Event b)) = diagnostics b c1 :=
    fun _ => rfl
  simp only [hx]
  rcases hu with hu | ⟨_, h8, h1, h2⟩ | ⟨_, h8, hi, ht, hm, hr, hs, hw⟩
  · exact absurd hc hu
  · have e := exception_handler_execute_none b E G er c w hc h8 h1 h2
    have hp : page_fault_kind b er c = [.log_error "Page fault(DEP): %p at %p\n"
        [(er.ExceptionInformation 1 : Int), (Xip b c : Int)]] := by
      simp [page_fault_kind, h8]
    rw [hp] at e
    refine ⟨fun _ => ?_, fun h => ?_, fun h => ?_, ?_⟩
    · rw [e]; rfl
    · rw [h8] at h; cases h
    · rw [h8] at h; cases h
    · rw [e]
      simp only [List.filter_append, hd, List.append_nil]
      simp [List.filter, Event.is_log_error]
  · have e := exception_handler_unclaimed b E G er c w hc h8 hi ht hm hr hs hw
    refine ⟨fun h => absurd h h8, fun h0 => ?_, fun h1 => ?_, ?_⟩
    · rw [e]
      simp [page_fault_kind, h0]
    · rw [e]
      simp [page_fault_kind, h1]
    · rw [e]
      simp only [List.filter_append, hd, List.append_nil]
      rcases hk with h | h | h
      · simp [page_fault_kind, h, List.filter, Event.is_log_error]
      · simp [page_fault_kind, h, List.filter, Event.is_log_error]
      · exact absurd h h8

/-- Witness of claim C14: a write fault at the unmapped address `0x5000`
raised at `0x2000`, outside every bracket, in the 32-bit build, logs the
`write` line once, after the calls of the classification and before the
diagnostic sequence. -/
theorem page_fault_line_witness :
    (exception_handler .win32 (env_of .win32 0 false []) symbols
      (access_violation 1 0x5000) (context32 0 0x2000) ()).events =
      [.log_info "IP: 0x%p\n" [0x2000], .tls_gs_emulation (context32 0 0x2000) 0x2000,
       .mm_handle_page_fault 0x5000,
       .log_error "Page fault(write): %p at %p\n" [0x5000, 0x2000],
       .log_info "Application crashed, dumping debug information...\n" [],
       .dump_virtual_memory (-1), .mm_dump_stack_trace (context32 0 0x2000),
       .log_info "EAX: 0x%p\n" [0], .log_info "EBX: 0x%p\n" [3],
       .log_info "ECX: 0x%p\n" [0], .log_info "EDX: 0x%p\n" [0],
       .log_info "ESI: 0x%p\n" [0], .log_info "EDI: 0x%p\n" [0],
       .log_info "EBP: 0x%p\n" [0], .log_info "ESP: 0x%p\n" [0x7000],
       .log_shutdown] :=
  ((page_fault_line .win32 (env_of .win32 0 false []) symbols
    (access_violation 1 0x5000) (context32 0 0x2000) () rfl (by decide)
    (by decide)).2.2.1 rfl).trans rfl

/-- Claim C15: the writes of `dispatch_syscall` and `exception_handler` to
the snapshot. The dispatcher leaves the snapshot of entry, or, when the
slot holds a handler, the snapshot that handler left with, when it
returned, the accumulator alone overwritten by its result. The handler
leaves the snapshot of entry when the code is not an access violation and
on an execute fault; on `INT 80h` what the dispatcher leaves when run on
the snapshot of entry with the instruction pointer alone advanced by 2;
otherwise the snapshot the segment emulator left, with the instruction
pointer alone overwritten by the continuation of the first bracket that
holds it when the emulator and the memory manager declined and such a
bracket exists. So when the emulator leaves the snapshot alone, the
snapshot on exit of a run where the memory manager resolved the fault or
no step claimed it is the snapshot of entry. -/
theorem snapshot_frame {W : Type} (b : Build) (E : Env b W) (G : Symbols)
    (er : EXCEPTION_RECORD) (c : CONTEXT b) (w : W) :
    ((dispatch_syscall b E.names c w).context = c ∨
      ∃ (h : syscall_fn b W) (a1 a2 a3 a4 a5 a6 : Int),
        (syscall_table E.names).get? (accumulator b c) = some (some (.handler h)) ∧
        ((∃ r c1 w1, h a1 a2 a3 a4 a5 a6 c w = .returns r c1 w1 ∧
            (dispatch_syscall b E.names c w).context =
              set_accumulator b c1 (of_int b.bits (as_int r))) ∨
          ∃ code c1 w1, h a1 a2 a3 a4 a5 a6 c w = .exits code c1 w1 ∧
            (dispatch_syscall b E.names c w).context = c1)) ∧
    (er.ExceptionCode ≠ EXCEPTION_ACCESS_VIOLATION →
      (exception_handler b E G er c w).context = c) ∧
    (er.ExceptionCode = EXCEPTION_ACCESS_VIOLATION → er.ExceptionInformation 0 = 8 →
      (exception_handler b E G er c w).context = c) ∧
    (er.ExceptionCode = EXCEPTION_ACCESS_VIOLATION → er.ExceptionInformation 0 ≠ 8 →
      is_int80 E w (Xip b c) →
      (exception_handler b E G er c w).context =
        (dispatch_syscall b E.names (set_Xip b c ((Xip b c + 2) % 2 ^ b.bits)) w).context) ∧
    (er.ExceptionCode = EXCEPTION_ACCESS_VIOLATION → er.ExceptionInformation 0 ≠ 8 →
      ¬ is_int80 E w (Xip b c) →
      ((E.tls_gs_emulation c (Xip b c) w).1 = true ∨
          (E.mm_handle_page_fault (er.ExceptionInformation 1)
            (E.tls_gs_emulation c (Xip b c) w).2.2).1 = true ∨
          unclaimed E G er c w →
        (exception_handler b E G er c w).context = (E.tls_gs_emulation c (Xip b c) w).2.1 ∧
        ((E.tls_gs_emulation c (Xip b c) w).2.1 = c →
          (exception_handler b E G er c w).context = c)) ∧
      ((E.tls_gs_emulation c (Xip b c) w).1 = false →
        (E.mm_handle_page_fault (er.ExceptionInformation 1)
          (E.tls_gs_emulation c (Xip b c) w).2.2).1 = false →
        ¬ unclaimed E G er c w →
        ∃ fail, (fail = G.mm_check_read_fail ∨ fail = G.mm_check_read_string_fail ∨
            fail = G.mm_check_write_fail) ∧
          (exception_handler b E G er c w).context =
            set_Xip b (E.tls_gs_emulation c (Xip b c) w).2.1 fail)) := by
  refine ⟨?_, ?_, ?_, ?_, ?_⟩
  · cases b
    · simp only [accumulator]
      cases hs : (syscall_table E.names).get? (CONTEXT32.Eax c) with
      | none => left; simp only [dispatch_syscall, call_syscall_table, hs]
      | some o =>
        cases o with
        | none => left; simp only [dispatch_syscall, call_syscall_table, hs]
        | some hd =>
          cases hd with
          | sys_unimplemented =>
            left; simp only [dispatch_syscall, call_syscall_table, hs, sys_unimplemented]
          | handler h =>
            right
            refine ⟨h, to_int (CONTEXT32.Ebx c), to_int (CONTEXT32.Ecx c),
              to_int (CONTEXT32.Edx c), to_int (CONTEXT32.Esi c), to_int (CONTEXT32.Edi c),
              to_int (CONTEXT32.Ebp c), rfl, ?_⟩
            cases hr : h (to_int (CONTEXT32.Ebx c)) (to_int (CONTEXT32.Ecx c))
                (to_int (CONTEXT32.Edx c)) (to_int (CONTEXT32.Esi c))
                (to_int (CONTEXT32.Edi c)) (to_int (CONTEXT32.Ebp c)) c w with
            | returns r c1 w1 =>
              left
              refine ⟨r, c1, w1, rfl, ?_⟩
              simp only [dispatch_syscall, call_syscall_table, hs, hr]
              rfl
            | exits code c1 w1 =>
              right
              refine ⟨code, c1, w1, rfl, ?_⟩
              simp only [dispatch_syscall, call_syscall_table, hs, hr]
    · simp only [accumulator]
      cases hs : (syscall_table E.names).get? (CONTEXT64.Rax c) with
      | none => left; simp only [dispatch_syscall, call_syscall_table, hs]
      | some o =>
        cases o with
        | none => left; simp only [dispatch_syscall, call_syscall_table, hs]
        | some hd =>
          cases hd with
          | sys_unimplemented =>
            left; simp only [dispatch_syscall, call_syscall_table, hs, sys_unimplemented]
          | handler h =>
            right
            refine ⟨h, to_int (CONTEXT64.Rdi c), to_int (CONTEXT64.Rsi c),
              to_int (CONTEXT64.Rdx c), to_int (CONTEXT64.R10 c), to_int (CONTEXT64.R8 c),
              to_int (CONTEXT64.R9 c), rfl, ?_⟩
            cases hr : h (to_int (CONTEXT64.Rdi c)) (to_int (CONTEXT64.Rsi c))
                (to_int (CONTEXT64.Rdx c)) (to_int (CONTEXT64.R10 c))
                (to_int (CONTEXT64.R8 c)) (to_int (CONTEXT64.R9 c)) c w with
            | returns r c1 w1 =>
              left
              refine ⟨r, c1, w1, rfl, ?_⟩
              simp only [dispatch_syscall, call_syscall_table, hs, hr]
              rfl
            | exits code c1 w1 =>
              right
              refine ⟨code, c1, w1, rfl, ?_⟩
              simp only [dispatch_syscall, call_syscall_table, hs, hr]
  · intro hc
    rw [exception_handler_other_code b E G er c w hc]
  · intro hc h8
    simp only [exception_handler, if_pos hc, if_pos h8]
    split_ifs <;> rfl
  · intro hc h8 hi
    rw [exception_handler_int80 b E G er c w hc h8 hi]
    rfl
  · intro hc h8 hi
    have key : ∀ ctx : CONTEXT b, ctx = (E.tls_gs_emulation c (Xip b c) w).2.1 →
        ctx = (E.tls_gs_emulation c (Xip b c) w).2.1 ∧
        ((E.tls_gs_emulation c (Xip b c) w).2.1 = c → ctx = c) :=
      fun ctx h => ⟨h, fun h1 => h.trans h1⟩
    constructor
    · intro h
      apply key
      by_cases ht : (E.tls_gs_emulation c (Xip b c) w).1 = true
      · rw [exception_handler_tls b E G er c w hc h8 hi ht]
      have htf : (E.tls_gs_emulation c (Xip b c) w).1 = false := by simpa using ht
      by_cases hm : (E.mm_handle_page_fault (er.ExceptionInformation 1)
          (E.tls_gs_emulation c (Xip b c) w).2.2).1 = true
      · rw [exception_handler_mm b E G er c w hc h8 hi htf hm]
      rcases h with h | h | h
      · exact absurd h ht
      · exact absurd h hm
      · rcases h with hu | ⟨_, h8', _⟩ | ⟨_, _, _, _, hmf, hr, hs, hw⟩
        · exact absurd hc hu
        · exact absurd h8' h8
        · rw [exception_handler_unclaimed b E G er c w hc h8 hi htf hmf hr hs hw]
    · intro ht hm hu
      by_cases hr : in_bracket G.mm_check_read_begin G.mm_check_read_end
          (Xip b (E.tls_gs_emulation c (Xip b c) w).2.1)
      · exact ⟨_, Or.inl rfl, by rw [exception_handler_read b E G er c w hc h8 hi ht hm hr]⟩
      by_cases hs : in_bracket G.mm_check_read_string_begin G.mm_check_read_string_end
          (Xip b (E.tls_gs_emulation c (Xip b c) w).2.1)
      · exact ⟨_, Or.inr (Or.inl rfl),
          by rw [exception_handler_read_string b E G er c w hc h8 hi ht hm hr hs]⟩
      by_cases hw : in_bracket G.mm_check_write_begin G.mm_check_write_end
          (Xip b (E.tls_gs_emulation c (Xip b c) w).2.1)
      · exact ⟨_, Or.inr (Or.inr rfl),
          by rw [exception_handler_write b E G er c w hc h8 hi ht hm hr hs hw]⟩
      · exact absurd (Or.inr (Or.inr ⟨hc, h8, hi, ht, hm, hr, hs, hw⟩)) hu

/-- Witness of claim C15: a read fault at the mapped address `0x5000`
raised at `0x2000` leaves the snapshot of entry; a division by zero
leaves the snapshot of entry. -/
theorem snapshot_frame_witness :
    (exception_handler .win32 (env_of .win32 0 false [0x5000]) symbols
      (access_violation 0 0x5000) (context32 42 0x2000) ()).context = context32 42 0x2000 ∧
    (exception_handler .win64 (env_of .win64 0 false []) symbols
      { ExceptionCode := 0xC0000094, ExceptionInformation := fun _ => 0 }
      (context64 42 0x2000) ()).context = context64 42 0x2000 :=
  ⟨(((snapshot_frame .win32 (env_of .win32 0 false [0x5000]) symbols
      (access_violation 0 0x5000) (context32 42 0x2000) ()).2.2.2.2 rfl (by decide)
      (by decide)).1 (Or.inr (Or.inl (by decide)))).2 rfl,
   (snapshot_frame .win64 (env_of .win64 0 false []) symbols
      { ExceptionCode := 0xC0000094, ExceptionInformation := fun _ => 0 }
      (context64 42 0x2000) ()).2.1 (by decide)⟩

/-- Claim C16: the conversions of `dispatch_syscall`. The value passed
for an argument register `v` is `to_int v`, the `int` congruent to `v`
modulo `2^32`. In the 64-bit build a handler at the slot of `Rax` that
receives `Rdi, Rsi, Rdx, R10, R8, R9` so converted and returns the `int`
`r` leaves `Rax = 2^64 + r` when `r < 0` and `Rax = r` when `0 ≤ r`. In
the 32-bit build, with `Ebx, Ecx, Edx, Esi, Edi, Ebp`, it leaves
`Eax = r mod 2^32`. -/
theorem dispatch_syscall_conversions {W : Type} :
    (∀ v : Nat, -2 ^ 31 ≤ to_int v ∧ to_int v < 2 ^ 31 ∧
      to_int v % 2 ^ 32 = (v : Int) % 2 ^ 32) ∧
    (∀ (names : List (Handler .win64 W)) (h : syscall_fn .win64 W) (c : CONTEXT64) (w : W)
        (r : Int) (c1 : CONTEXT64) (w1 : W),
      (syscall_table names).get? c.Rax = some (some (.handler h)) →
      -2 ^ 31 ≤ r → r < 2 ^ 31 →
      h (to_int c.Rdi) (to_int c.Rsi) (to_int c.Rdx) (to_int c.R10) (to_int c.R8)
        (to_int c.R9) c w = .returns r c1 w1 →
      (dispatch_syscall .win64 names c w).events =
        [.syscall c.Rax (to_int c.Rdi) (to_int c.Rsi) (to_int c.Rdx) (to_int c.R10)
          (to_int c.R8) (to_int c.R9) c] ∧
      (r < 0 → ((CONTEXT64.Rax (dispatch_syscall .win64 names c w).context : Nat) : Int) =
        2 ^ 64 + r) ∧
      (0 ≤ r → ((CONTEXT64.Rax (dispatch_syscall .win64 names c w).context : Nat) : Int) =
        r)) ∧
    (∀ (names : List (Handler .win32 W)) (h : syscall_fn .win32 W) (c : CONTEXT32) (w : W)
        (r : Int) (c1 : CONTEXT32) (w1 : W),
      (syscall_table names).get? c.Eax = some (some (.handler h)) →
      -2 ^ 31 ≤ r → r < 2 ^ 31 →
      h (to_int c.Ebx) (to_int c.Ecx) (to_int c.Edx) (to_int c.Esi) (to_int c.Edi)
        (to_int c.Ebp) c w = .returns r c1 w1 →
      (dispatch_syscall .win32 names c w).events =
        [.syscall c.Eax (to_int c.Ebx) (to_int c.Ecx) (to_int c.Edx) (to_int c.Esi)
          (to_int c.Edi) (to_int c.Ebp) c] ∧
      ((CONTEXT32.Eax (dispatch_syscall .win32 names c w).context : Nat) : Int) =
        r % 2 ^ 32) := by
  refine ⟨?_, ?_, ?_⟩
  · intro v
    unfold to_int
    split <;> omega
  · intro names h c w r c1 w1 hs h1 h2 hr
    have e : dispatch_syscall .win64 names c w =
        { context := { c1 with Rax := of_int 64 (as_int r) }, world := w1,
          events := [.syscall c.Rax (to_int c.Rdi) (to_int c.Rsi) (to_int c.Rdx)
            (to_int c.R10) (to_int c.R8) (to_int c.R9) c],
          outcome := .returned () } := by
      simp only [dispatch_syscall, call_syscall_table, hs, hr]
    rw [e, as_int_of_range r h1 h2]
    have h3 : (0 : Int) ≤ r % 2 ^ 64 := Int.emod_nonneg _ (by norm_num)
    have h4 : ((r % 2 ^ 64).toNat : Int) = r % 2 ^ 64 := Int.toNat_of_nonneg h3
    refine ⟨rfl, ?_, ?_⟩
    · intro hneg
      show ((of_int 64 r : Nat) : Int) = 2 ^ 64 + r
      unfold of_int
      omega
    · intro hpos
      show ((of_int 64 r : Nat) : Int) = r
      unfold of_int
      omega
  · intro names h c w r c1 w1 hs h1 h2 hr
    have e : dispatch_syscall .win32 names c w =
        { context := { c1 with Eax := of_int 32 (as_int r) }, world := w1,
          events := [.syscall c.Eax (to_int c.Ebx) (to_int c.Ecx) (to_int c.Edx)
            (to_int c.Esi) (to_int c.Edi) (to_int c.Ebp) c],
          outcome := .returned () } := by
      simp only [dispatch_syscall, call_syscall_table, hs, hr]
    rw [e, as_int_of_range r h1 h2]
    have h3 : (0 : Int) ≤ r % 2 ^ 32 := Int.emod_nonneg _ (by norm_num)
    refine ⟨rfl, ?_⟩
    show ((of_int 32 r : Nat) : Int) = r % 2 ^ 32
    unfold of_int
    exact Int.toNat_of_nonneg h3

/-- Witness of claim C16: a handler that returns -1 leaves
`Rax = 2^64 - 1` in the 64-bit build and `Eax = 2^32 - 1` in the 32-bit
build. -/
theorem dispatch_syscall_conversions_witness :
    ((CONTEXT64.Rax (dispatch_syscall .win64 [.handler minus_one]
        (context64 1 0x1000) ()).context : Nat) : Int) = 2 ^ 64 + -1 ∧
    ((CONTEXT32.Eax (dispatch_syscall .win32 [.handler minus_one]
        (context32 1 0x1000) ()).context : Nat) : Int) = -1 % 2 ^ 32 :=
  ⟨((dispatch_syscall_conversions (W := Unit)).2.1 [.handler minus_one] minus_one
      (context64 1 0x1000) () (-1) (context64 1 0x1000) () rfl (by decide) (by decide)
      rfl).2.1 (by decide),
   ((dispatch_syscall_conversions (W := Unit)).2.2 [.handler minus_one] minus_one
      (context32 1 0x1000) () (-1) (context32 1 0x1000) () rfl (by decide) (by decide)
      rfl).2⟩

end Flinux
